import Mathlib

/-!
# Hotel-DB: the reservation endpoints of `backend/server.js`

A shallow embedding of the Express handlers of `backend/server.js` and of the
SQLite tables they read and write, followed by theorems about the reservation
subsystem.  The guest and room handlers the reservation claims involve
(deleting a guest or room, writing a room) and the statistics of
`frontend/src/components/Dashboard.jsx` are embedded as well.

Modelling conventions.

* A request body field is typed after the column it is written to
  (`initDb`): `INTEGER` columns carry `Option Int`, `TEXT` columns carry
  `Option String`.  `none` stands for a field that is missing from the body
  (`undefined`) or `null`; both are bound to SQL `NULL`.
* JavaScript truthiness (`!x`, `x || d`) is `truthyInt` / `truthyText`.
* A table is the list of its rows in rowid order; `INSERT` appends, because
  an `AUTOINCREMENT` rowid is larger than every rowid in the table.
* The route parameter `:id` is the integer that SQLite compares with the
  `INTEGER PRIMARY KEY` column.
* The `err` branches of the callbacks (storage faults, status 500) have no
  counterpart: the store is a total in-memory structure, and the 64-bit
  limit of rowids is not reached.
-/

namespace HotelDB

/-! ## Data model (`initDb`) -/

/-- Row of the `guests` table. -/
structure Guest where
  id : Int
  name : String
  email : Option String
  phone : Option String
  custom_fields : Option String
deriving DecidableEq, Repr

/-- Row of the `rooms` table. -/
structure Room where
  id : Int
  number : String
  type : Option String
  status : Option String
  price : Option Rat
deriving DecidableEq, Repr

/-- Row of the `reservations` table; every column but `id` is nullable. -/
structure Reservation where
  id : Int
  guest_id : Option Int
  room_id : Option Int
  check_in : Option String
  check_out : Option String
  status : Option String
deriving DecidableEq, Repr

/-- The database: the three tables and, for each, the `sqlite_sequence`
entry kept by `AUTOINCREMENT` (the largest rowid ever assigned). -/
structure Db where
  guests : List Guest
  rooms : List Room
  reservations : List Reservation
  guestSeq : Int
  roomSeq : Int
  reservationSeq : Int
deriving DecidableEq, Repr

/-- The database right after `initDb` on a fresh file. -/
def Db.empty : Db :=
  { guests := [], rooms := [], reservations := [],
    guestSeq := 0, roomSeq := 0, reservationSeq := 0 }

/-- The JSON body of `POST` and `PUT /api/reservations`, after
`const { guest_id, room_id, check_in, check_out, status } = req.body`. -/
structure ReservationBody where
  guest_id : Option Int
  room_id : Option Int
  check_in : Option String
  check_out : Option String
  status : Option String
deriving DecidableEq, Repr

/-- Row of the joined `SELECT` of the two reservation `GET` handlers:
`r.*`, `g.name as guest_name`, `g.email as guest_email`,
`rm.number as room_number`, `rm.type as room_type`. -/
structure ReservationRow where
  id : Int
  guest_id : Option Int
  room_id : Option Int
  check_in : Option String
  check_out : Option String
  status : Option String
  guest_name : Option String
  guest_email : Option String
  room_number : Option String
  room_type : Option String
deriving DecidableEq, Repr

/-- What a handler sends: `res.status(code).json(body)` for a payload, or
`res.status(code).json({ error: message })`. -/
inductive Reply (α : Type) where
  | json (code : Nat) (body : α)
  | error (code : Nat) (message : String)
deriving DecidableEq, Repr

/-! ## JavaScript truthiness -/

/-- Truthiness of a numeric field: missing, `null` and `0` are falsy. -/
def truthyInt : Option Int → Bool
  | none => false
  | some n => n != 0

/-- Truthiness of a text field: missing, `null` and `""` are falsy. -/
def truthyText : Option String → Bool
  | none => false
  | some s => s != ""

/-- The expression `v || d` for a text field `v` and a string literal `d`. -/
def orElse (v : Option String) (d : String) : Option String :=
  if truthyText v then v else some d

/-- The guard of the reservation `POST` and `PUT` handlers:
`!guest_id || !room_id || !check_in || !check_out`. -/
def missingRequired (body : ReservationBody) : Bool :=
  !truthyInt body.guest_id || !truthyInt body.room_id ||
    !truthyText body.check_in || !truthyText body.check_out

/-! ## SQLite primitives -/

/-- Largest rowid of a table, `none` for an empty table. -/
def maxRowid : List Int → Option Int
  | [] => none
  | x :: xs =>
    match maxRowid xs with
    | none => some x
    | some m => some (max x m)

/-- The rowid an `INTEGER PRIMARY KEY AUTOINCREMENT` table assigns: one more
than the largest rowid in the table (1 for an empty table), raised to one
more than the `sqlite_sequence` entry when that is larger. -/
def newRowid (rowids : List Int) (seq : Int) : Int :=
  let next : Int := match maxRowid rowids with
    | none => 1
    | some m => m + 1
  if next < seq + 1 then seq + 1 else next

/-- The operator `LEFT JOIN ... ON`: every left row is paired with each right
row the condition accepts, or once with `NULL`s when there is none. -/
def leftJoin {α β : Type} (cond : α → β → Bool) (l : List α) (r : List β) :
    List (α × Option β) :=
  l.flatMap fun a =>
    if (r.filter (cond a)).isEmpty then [(a, none)]
    else (r.filter (cond a)).map fun b => (a, some b)

/-- The comparison `r.guest_id = g.id` (and `r.room_id = rm.id`): `NULL`
equals nothing. -/
def refEq (ref : Option Int) (id : Int) : Bool :=
  ref == some id

/-- The select list of the joined query, on one row of the double join. -/
def selectColumns (x : (Reservation × Option Guest) × Option Room) : ReservationRow :=
  { id := x.1.1.id
    guest_id := x.1.1.guest_id
    room_id := x.1.1.room_id
    check_in := x.1.1.check_in
    check_out := x.1.1.check_out
    status := x.1.1.status
    guest_name := x.1.2.map (·.name)
    guest_email := x.1.2.bind (·.email)
    room_number := x.2.map (·.number)
    room_type := x.2.bind (·.type) }

/-- The query `SELECT r.*, g.name as guest_name, g.email as guest_email,
rm.number as room_number, rm.type as room_type FROM reservations r
LEFT JOIN guests g ON r.guest_id = g.id LEFT JOIN rooms rm ON r.room_id = rm.id`. -/
def joinedReservations (db : Db) : List ReservationRow :=
  (leftJoin (fun (x : Reservation × Option Guest) (rm : Room) => refEq x.1.room_id rm.id)
    (leftJoin (fun (r : Reservation) (g : Guest) => refEq r.guest_id g.id)
      db.reservations db.guests)
    db.rooms).map selectColumns

/-- Order of a nullable `TEXT` column under the `BINARY` collation: `NULL`
sorts before every text, texts compare character by character. -/
def sqlTextLe : Option String → Option String → Prop
  | none, _ => True
  | some _, none => False
  | some a, some b => a.data ≤ b.data

instance sqlTextLe.decidable : DecidableRel sqlTextLe := fun a b =>
  match a, b with
  | none, _ => isTrue trivial
  | some _, none => isFalse (fun h => h)
  | some a, some b => inferInstanceAs (Decidable (a.data ≤ b.data))

/-- The relation `ORDER BY r.check_in DESC` sorts by: the first row's
`check_in` is not smaller than the second's. -/
def checkInDesc (a b : ReservationRow) : Prop :=
  sqlTextLe b.check_in a.check_in

instance checkInDesc.decidable : DecidableRel checkInDesc := fun a b =>
  inferInstanceAs (Decidable (sqlTextLe b.check_in a.check_in))

/-- Statement `INSERT INTO reservations (guest_id, room_id, check_in,
check_out, status) VALUES (?, ?, ?, ?, ?)`: returns `this.lastID` and the
new database. -/
def insertReservation (db : Db) (guest_id room_id : Option Int)
    (check_in check_out status : Option String) : Int × Db :=
  let rowid := newRowid (db.reservations.map fun r => r.id) db.reservationSeq
  (rowid,
    { db with
      reservations := db.reservations ++
        [{ id := rowid, guest_id := guest_id, room_id := room_id,
           check_in := check_in, check_out := check_out, status := status }]
      reservationSeq := rowid })

/-- Statement `UPDATE reservations SET guest_id = ?, room_id = ?,
check_in = ?, check_out = ?, status = ? WHERE id = ?`: returns
`this.changes` and the new database. -/
def updateReservationRow (db : Db) (guest_id room_id : Option Int)
    (check_in check_out status : Option String) (id : Int) : Nat × Db :=
  ((db.reservations.filter (fun r => r.id == id)).length,
    { db with
      reservations := db.reservations.map fun r =>
        if r.id == id then
          { id := r.id, guest_id := guest_id, room_id := room_id,
            check_in := check_in, check_out := check_out, status := status }
        else r })

/-- Statement `DELETE FROM reservations WHERE id = ?`: returns
`this.changes` and the new database. -/
def deleteReservationRow (db : Db) (id : Int) : Nat × Db :=
  ((db.reservations.filter (fun r => r.id == id)).length,
    { db with reservations := db.reservations.filter (fun r => !(r.id == id)) })

/-! ## The reservation handlers -/

/-- The message of the 400 reply of the reservation `POST` and `PUT`. -/
def requiredMessage : String :=
  "Guest ID, room ID, check-in, and check-out are required"

/-- Handler `app.get('/api/reservations')`: the joined rows,
`ORDER BY r.check_in DESC`.  The sort is stable on the rowid order of the
join; SQL leaves the order of rows with equal `check_in` open. -/
def listReservations (db : Db) : Reply (List ReservationRow) :=
  .json 200 ((joinedReservations db).insertionSort checkInDesc)

/-- Handler `app.get('/api/reservations/:id')`: `db.get` yields the first
joined row with `r.id = ?`, or `undefined`. -/
def getReservation (db : Db) (id : Int) : Reply ReservationRow :=
  match (joinedReservations db).find? (fun row => row.id == id) with
  | none => .error 404 "Reservation not found"
  | some row => .json 200 row

/-- Handler `app.post('/api/reservations')`. -/
def createReservation (db : Db) (body : ReservationBody) : Reply Reservation × Db :=
  if missingRequired body then
    (.error 400 requiredMessage, db)
  else
    let ins := insertReservation db body.guest_id body.room_id body.check_in
      body.check_out (orElse body.status "active")
    (.json 201
      { id := ins.1, guest_id := body.guest_id, room_id := body.room_id,
        check_in := body.check_in, check_out := body.check_out,
        status := orElse body.status "active" },
      ins.2)

/-- Handler `app.put('/api/reservations/:id')`. -/
def updateReservation (db : Db) (id : Int) (body : ReservationBody) :
    Reply Reservation × Db :=
  if missingRequired body then
    (.error 400 requiredMessage, db)
  else
    let upd := updateReservationRow db body.guest_id body.room_id body.check_in
      body.check_out body.status id
    if upd.1 == 0 then
      (.error 404 "Reservation not found", upd.2)
    else
      (.json 200
        { id := id, guest_id := body.guest_id, room_id := body.room_id,
          check_in := body.check_in, check_out := body.check_out,
          status := body.status },
        upd.2)

/-- Handler `app.delete('/api/reservations/:id')`. -/
def deleteReservation (db : Db) (id : Int) : Reply String × Db :=
  let del := deleteReservationRow db id
  if del.1 == 0 then
    (.error 404 "Reservation not found", del.2)
  else
    (.json 200 "Reservation deleted successfully", del.2)


/-! ## The guest and room handlers the reservation claims involve -/

/-- Statement `DELETE FROM guests WHERE id = ?`: returns `this.changes` and
the new database. -/
def deleteGuestRow (db : Db) (id : Int) : Nat × Db :=
  ((db.guests.filter (fun g => g.id == id)).length,
    { db with guests := db.guests.filter (fun g => !(g.id == id)) })

/-- Handler `app.delete('/api/guests/:id')`. -/
def deleteGuest (db : Db) (id : Int) : Reply String × Db :=
  let del := deleteGuestRow db id
  if del.1 == 0 then
    (.error 404 "Guest not found", del.2)
  else
    (.json 200 "Guest deleted successfully", del.2)

/-- Statement `DELETE FROM rooms WHERE id = ?`: returns `this.changes` and
the new database. -/
def deleteRoomRow (db : Db) (id : Int) : Nat × Db :=
  ((db.rooms.filter (fun rm => rm.id == id)).length,
    { db with rooms := db.rooms.filter (fun rm => !(rm.id == id)) })

/-- Handler `app.delete('/api/rooms/:id')`. -/
def deleteRoom (db : Db) (id : Int) : Reply String × Db :=
  let del := deleteRoomRow db id
  if del.1 == 0 then
    (.error 404 "Room not found", del.2)
  else
    (.json 200 "Room deleted successfully", del.2)

/-- The JSON body of `POST` and `PUT /api/rooms`, after
`const { number, type, status, price } = req.body`. -/
structure RoomBody where
  number : Option String
  type : Option String
  status : Option String
  price : Option Rat
deriving DecidableEq, Repr

/-- The object the room `POST` and `PUT` handlers send back:
`{ id, number, type, status, price }`. -/
structure RoomRecord where
  id : Int
  number : Option String
  type : Option String
  status : Option String
  price : Option Rat
deriving DecidableEq, Repr

/-- Statement `INSERT INTO rooms (number, type, status, price) VALUES
(?, ?, ?, ?)` for a non-null number: returns `this.lastID` and the new
database. -/
def insertRoom (db : Db) (number : String) (type status : Option String)
    (price : Option Rat) : Int × Db :=
  let rowid := newRowid (db.rooms.map fun rm => rm.id) db.roomSeq
  (rowid,
    { db with
      rooms := db.rooms ++
        [{ id := rowid, number := number, type := type, status := status,
           price := price }]
      roomSeq := rowid })

/-- Statement `UPDATE rooms SET number = ?, type = ?, status = ?, price = ?
WHERE id = ?` for a non-null number: returns `this.changes` and the new
database. -/
def updateRoomRow (db : Db) (number : String) (type status : Option String)
    (price : Option Rat) (id : Int) : Nat × Db :=
  ((db.rooms.filter (fun rm => rm.id == id)).length,
    { db with
      rooms := db.rooms.map fun rm =>
        if rm.id == id then
          { id := rm.id, number := number, type := type, status := status,
            price := price }
        else rm })

/-- Handler `app.post('/api/rooms')`; the guard `!number` rejects a missing,
null or empty number. -/
def createRoom (db : Db) (body : RoomBody) : Reply RoomRecord × Db :=
  match body.number with
  | none => (.error 400 "Room number is required", db)
  | some number =>
    if number == "" then
      (.error 400 "Room number is required", db)
    else
      let ins := insertRoom db number body.type (orElse body.status "available")
        body.price
      (.json 201
        { id := ins.1, number := some number, type := body.type,
          status := orElse body.status "available", price := body.price },
        ins.2)

/-- Handler `app.put('/api/rooms/:id')`; the guard `!number` rejects a
missing, null or empty number. -/
def updateRoom (db : Db) (id : Int) (body : RoomBody) : Reply RoomRecord × Db :=
  match body.number with
  | none => (.error 400 "Room number is required", db)
  | some number =>
    if number == "" then
      (.error 400 "Room number is required", db)
    else
      let upd := updateRoomRow db number body.type body.status body.price id
      if upd.1 == 0 then
        (.error 404 "Room not found", upd.2)
      else
        (.json 200
          { id := id, number := some number, type := body.type,
            status := body.status, price := body.price },
          upd.2)

/-! ## The dashboard (`Dashboard.jsx`) -/

/-- The state `stats` of the `Dashboard` component. -/
structure Stats where
  guests : Nat
  rooms : Nat
  reservations : Nat
  availableRooms : Nat
deriving DecidableEq, Repr

/-- The body of `fetchStats` after the three lists have been fetched:
`availableRooms` counts the rooms with `room.status === 'available'`, the
other three entries are the lengths of the lists. -/
def fetchStats (guests : List Guest) (rooms : List Room)
    (reservations : List ReservationRow) : Stats :=
  { guests := guests.length
    rooms := rooms.length
    reservations := reservations.length
    availableRooms := (rooms.filter (fun room => room.status == some "available")).length }

/-- The four `stat-card` elements the component renders: the heading and the
number shown under it. -/
def statCards (stats : Stats) : List (String × Nat) :=
  [("👥 Total Guests", stats.guests),
   ("🏠 Total Rooms", stats.rooms),
   ("📅 Active Reservations", stats.reservations),
   ("✅ Available Rooms", stats.availableRooms)]

/-! ## Sequences of reservation requests -/

/-- A write request to the reservation endpoints. -/
inductive Request where
  | create (body : ReservationBody)
  | update (id : Int) (body : ReservationBody)
  | delete (id : Int)
deriving DecidableEq, Repr

/-- The database after one request has been handled. -/
def step (db : Db) : Request → Db
  | .create body => (createReservation db body).2
  | .update id body => (updateReservation db id body).2
  | .delete id => (deleteReservation db id).2

/-- The database after a sequence of requests, handled one after another. -/
def run (db : Db) : List Request → Db
  | [] => db
  | req :: rest => run (step db req) rest

/-- The identifier a request is answered with when it is a create that
succeeds (`id: this.lastID` of the 201 reply). -/
def assignedId (db : Db) : Request → Option Int
  | .create body =>
    match (createReservation db body).1 with
    | .json _ record => some record.id
    | .error _ _ => none
  | _ => none

/-- The identifiers the successful creates of a sequence of requests were
answered with, oldest first. -/
def assignedIds (db : Db) : List Request → List Int
  | [] => []
  | req :: rest =>
    match assignedId db req with
    | some id => id :: assignedIds (step db req) rest
    | none => assignedIds (step db req) rest

/-! ## Auxiliary definitions for the proofs -/

/-- The three status values of the data model. -/
def statusValues : List (Option String) :=
  [some "active", some "completed", some "cancelled"]

/-- A request whose status stays within the data model: a create carries one
of the three values or none (missing, null or empty), an update carries one
of the three values. -/
def Request.statusWithinModel : Request → Prop
  | .create body =>
    body.status = none ∨ body.status = some "" ∨ body.status ∈ statusValues
  | .update _ body => body.status ∈ statusValues
  | .delete _ => True

/-- The joined row of a reservation with the first guest and the first room
its references match; `getReservation_eq` shows it is what `db.get` yields. -/
def firstJoined (db : Db) (r : Reservation) : ReservationRow :=
  selectColumns
    ((r, db.guests.find? (fun g => refEq r.guest_id g.id)),
      db.rooms.find? (fun rm => refEq r.room_id rm.id))

/-! ## Sample inputs -/

/-- A body whose four required fields are all supplied, with an empty
`check_out`. -/
def emptyCheckOutBody : ReservationBody :=
  { guest_id := some 1, room_id := some 1, check_in := some "2024-01-10",
    check_out := some "", status := none }

/-- A complete body whose `status` is supplied as the empty string. -/
def emptyStatusBody : ReservationBody :=
  { guest_id := some 1, room_id := some 1, check_in := some "2024-03-01",
    check_out := some "2024-03-05", status := some "" }

/-- The reservation of the scenario of the specification, status omitted. -/
def marchBody : ReservationBody :=
  { guest_id := some 1, room_id := some 1, check_in := some "2024-03-01",
    check_out := some "2024-03-05", status := none }

/-- The guest and the room of the scenario of the specification: Alice
(id 1) and room 101 (id 1, available), no reservation yet. -/
def scenarioDb : Db :=
  { guests := [⟨1, "Alice", some "alice@example.com", none, none⟩]
    rooms := [⟨1, "101", some "double", some "available", none⟩]
    reservations := []
    guestSeq := 1, roomSeq := 1, reservationSeq := 0 }

/-- The scenario store after the reservation has been created (id 1). -/
def bookedDb : Db :=
  (createReservation scenarioDb marchBody).2

/-- The scenario reservation as it is stored in `bookedDb`. -/
def marchReservation : Reservation :=
  ⟨1, some 1, some 1, some "2024-03-01", some "2024-03-05", some "active"⟩

/-- A store holding reservations with check-in dates `2024-01-05`,
`2024-02-01` and `2024-01-20`, created in that order. -/
def listingDb : Db :=
  (createReservation
    (createReservation
      (createReservation Db.empty
        ⟨some 1, some 1, some "2024-01-05", some "2024-01-06", none⟩).2
      ⟨some 1, some 1, some "2024-02-01", some "2024-02-02", none⟩).2
    ⟨some 1, some 1, some "2024-01-20", some "2024-01-21", none⟩).2

/-- A complete body whose `status` is outside the data model. -/
def pendingBody : ReservationBody :=
  { guest_id := some 1, room_id := some 1, check_in := some "2024-03-01",
    check_out := some "2024-03-05", status := some "pending" }

/-- The guest of the scenario as stored in `scenarioDb`. -/
def alice : Guest :=
  ⟨1, "Alice", some "alice@example.com", none, none⟩

/-- The room of the scenario as stored in `scenarioDb`. -/
def room101 : Room :=
  ⟨1, "101", some "double", some "available", none⟩

/-- A room body with number `101` and no status. -/
def room101Body : RoomBody :=
  { number := some "101", type := some "double", status := none, price := none }

/-- A fetched reservation row whose status is `cancelled`. -/
def cancelledRow : ReservationRow :=
  ⟨1, some 1, some 1, some "2024-03-01", some "2024-03-05", some "cancelled",
    some "Alice", some "alice@example.com", some "101", some "double"⟩

/-- The scenario store with a second reservation, for guest 1 and the
unknown room 9. -/
def danglingDb : Db :=
  (createReservation bookedDb
    ⟨some 1, some 9, some "2024-05-01", some "2024-05-02", none⟩).2

/-! ## Lemmas on the guard and on `AUTOINCREMENT` -/

theorem truthyInt_eq_false (v : Option Int) :
    truthyInt v = false ↔ (v = none ∨ v = some 0) := by
  cases v with
  | none => simp [truthyInt]
  | some n => simp [truthyInt]

theorem truthyText_eq_false (v : Option String) :
    truthyText v = false ↔ (v = none ∨ v = some "") := by
  cases v with
  | none => simp [truthyText]
  | some s => simp [truthyText]

theorem missingRequired_eq_true (body : ReservationBody) :
    missingRequired body = true ↔
      ((body.guest_id = none ∨ body.guest_id = some 0) ∨
        (body.room_id = none ∨ body.room_id = some 0) ∨
        (body.check_in = none ∨ body.check_in = some "") ∨
        (body.check_out = none ∨ body.check_out = some "")) := by
  rw [← truthyInt_eq_false, ← truthyInt_eq_false, ← truthyText_eq_false,
    ← truthyText_eq_false]
  simp [missingRequired, or_assoc]

theorem missingRequired_of_supplied (g r : Int) (ci co : String) (st : Option String)
    (hg : g ≠ 0) (hr : r ≠ 0) (hci : ci ≠ "") (hco : co ≠ "") :
    missingRequired ⟨some g, some r, some ci, some co, st⟩ = false := by
  simp [missingRequired, truthyInt, truthyText, hg, hr, hci, hco]

theorem createReservation_of_missing (db : Db) (body : ReservationBody)
    (h : missingRequired body = true) :
    createReservation db body = (.error 400 requiredMessage, db) := by
  simp [createReservation, h]

theorem createReservation_of_complete (db : Db) (body : ReservationBody)
    (h : missingRequired body = false) :
    createReservation db body =
      (.json 201
        { id := newRowid (db.reservations.map fun x => x.id) db.reservationSeq,
          guest_id := body.guest_id, room_id := body.room_id,
          check_in := body.check_in, check_out := body.check_out,
          status := orElse body.status "active" },
        { db with
          reservations := db.reservations ++
            [{ id := newRowid (db.reservations.map fun x => x.id) db.reservationSeq,
               guest_id := body.guest_id, room_id := body.room_id,
               check_in := body.check_in, check_out := body.check_out,
               status := orElse body.status "active" }]
          reservationSeq := newRowid (db.reservations.map fun x => x.id) db.reservationSeq }) := by
  simp [createReservation, h, insertReservation]

theorem le_maxRowid (l : List Int) (x : Int) (hx : x ∈ l) :
    ∃ m, maxRowid l = some m ∧ x ≤ m := by
  induction l with
  | nil => cases hx
  | cons y ys ih =>
    rcases List.mem_cons.mp hx with rfl | hmem
    · cases h : maxRowid ys with
      | none => exact ⟨x, by simp [maxRowid, h], le_refl _⟩
      | some m => exact ⟨max x m, by simp [maxRowid, h], le_max_left _ _⟩
    · obtain ⟨m, hm, hle⟩ := ih hmem
      exact ⟨max y m, by simp [maxRowid, hm], le_trans hle (le_max_right _ _)⟩

/-- An `AUTOINCREMENT` rowid is larger than every rowid of the table. -/
theorem lt_newRowid (rowids : List Int) (seq x : Int) (hx : x ∈ rowids) :
    x < newRowid rowids seq := by
  obtain ⟨m, hm, hle⟩ := le_maxRowid rowids x hx
  unfold newRowid
  rw [hm]
  dsimp only
  split_ifs <;> omega

/-- The row an `INSERT` appends is the first, and only, row with its rowid. -/
theorem find?_append_new (rs : List Reservation) (seq : Int) (new : Reservation)
    (hid : new.id = newRowid (rs.map fun x => x.id) seq) :
    (rs ++ [new]).find? (fun r => r.id == newRowid (rs.map fun x => x.id) seq) =
      some new := by
  have hnone : rs.find? (fun r => r.id == newRowid (rs.map fun x => x.id) seq) = none := by
    rw [List.find?_eq_none]
    intro r hr
    have hlt := lt_newRowid (rs.map fun x => x.id) seq r.id
      (List.mem_map_of_mem (fun x : Reservation => x.id) hr)
    simp only [beq_iff_eq]
    omega
  simp [List.find?_append, hnone, hid]

/-! ## Lemmas on the joined query -/

theorem head?_filter_eq_find? {β : Type} (p : β → Bool) (r : List β) :
    (r.filter p).head? = r.find? p := by
  induction r with
  | nil => rfl
  | cons b bs ih =>
    cases h : p b with
    | true => simp [List.filter_cons, List.find?_cons, h]
    | false => simp [List.filter_cons, List.find?_cons, h, ih]

theorem leftJoin_append {α β : Type} (cond : α → β → Bool) (l₁ l₂ : List α)
    (r : List β) :
    leftJoin cond (l₁ ++ l₂) r = leftJoin cond l₁ r ++ leftJoin cond l₂ r := by
  simp [leftJoin, List.flatMap_append]

theorem leftJoin_cons {α β : Type} (cond : α → β → Bool) (a : α) (l : List α)
    (r : List β) :
    leftJoin cond (a :: l) r = leftJoin cond [a] r ++ leftJoin cond l r :=
  leftJoin_append cond [a] l r

theorem fst_mem_of_mem_leftJoin {α β : Type} (cond : α → β → Bool) (l : List α)
    (r : List β) (x : α × Option β) (hx : x ∈ leftJoin cond l r) : x.1 ∈ l := by
  unfold leftJoin at hx
  rw [List.mem_flatMap] at hx
  obtain ⟨a, ha, hxa⟩ := hx
  split at hxa
  · simp only [List.mem_singleton] at hxa
    rw [hxa]; exact ha
  · rw [List.mem_map] at hxa
    obtain ⟨b, _, hb⟩ := hxa
    rw [← hb]; exact ha

theorem leftJoin_head {α β : Type} (cond : α → β → Bool) (a : α) (l : List α)
    (r : List β) :
    ∃ tail, leftJoin cond (a :: l) r = (a, r.find? (cond a)) :: tail := by
  have hs : leftJoin cond [a] r =
      if (r.filter (cond a)).isEmpty then [(a, none)]
      else (r.filter (cond a)).map fun b => (a, some b) := by
    unfold leftJoin
    rw [List.flatMap_cons, List.flatMap_nil, List.append_nil]
  rw [leftJoin_cons, hs, ← head?_filter_eq_find?]
  cases r.filter (cond a) with
  | nil => exact ⟨leftJoin cond l r, rfl⟩
  | cons b bs => exact ⟨bs.map (fun b => (a, some b)) ++ leftJoin cond l r, rfl⟩

/-- The rows the double join produces for one reservation: the first is
`firstJoined`, and all of them carry the reservation's own id. -/
theorem joined_single (db : Db) (r : Reservation) :
    ∃ tail,
      (leftJoin (fun (x : Reservation × Option Guest) (rm : Room) => refEq x.1.room_id rm.id)
        (leftJoin (fun (r : Reservation) (g : Guest) => refEq r.guest_id g.id) [r] db.guests)
        db.rooms).map selectColumns = firstJoined db r :: tail ∧
      ∀ row ∈ tail, row.id = r.id := by
  obtain ⟨t₁, h₁⟩ := leftJoin_head (fun (r : Reservation) (g : Guest) => refEq r.guest_id g.id)
    r [] db.guests
  have hall : ∀ x ∈ leftJoin
      (fun (x : Reservation × Option Guest) (rm : Room) => refEq x.1.room_id rm.id)
      (leftJoin (fun (r : Reservation) (g : Guest) => refEq r.guest_id g.id) [r] db.guests)
      db.rooms, x.1.1 = r := by
    intro x hx
    have h := fst_mem_of_mem_leftJoin _ _ _ _ (fst_mem_of_mem_leftJoin _ _ _ _ hx)
    simpa using h
  rw [h₁] at hall ⊢
  obtain ⟨t₂, h₂⟩ := leftJoin_head
    (fun (x : Reservation × Option Guest) (rm : Room) => refEq x.1.room_id rm.id)
    (r, db.guests.find? (fun g => refEq r.guest_id g.id)) t₁ db.rooms
  rw [h₂] at hall ⊢
  refine ⟨t₂.map selectColumns, by simp [firstJoined], ?_⟩
  intro row hrow
  rw [List.mem_map] at hrow
  obtain ⟨x, hx, hxr⟩ := hrow
  rw [← hxr, ← hall x (List.mem_cons_of_mem _ hx)]
  rfl

theorem find?_joined (db : Db) (id : Int) (rs : List Reservation) :
    ((leftJoin (fun (x : Reservation × Option Guest) (rm : Room) => refEq x.1.room_id rm.id)
        (leftJoin (fun (r : Reservation) (g : Guest) => refEq r.guest_id g.id) rs db.guests)
        db.rooms).map selectColumns).find? (fun row => row.id == id) =
      (rs.find? (fun r => r.id == id)).map (firstJoined db) := by
  induction rs with
  | nil => rfl
  | cons r rs ih =>
    rw [leftJoin_cons, leftJoin_append, List.map_append, List.find?_append, ih]
    obtain ⟨tail, hrows, htail⟩ := joined_single db r
    rw [hrows]
    cases h : r.id == id with
    | true =>
      have : (firstJoined db r).id == id := h
      simp [List.find?_cons, h, this]
    | false =>
      have hfirst : ((firstJoined db r).id == id) = false := h
      have hnone : tail.find? (fun row => row.id == id) = none := by
        rw [List.find?_eq_none]
        intro row hrow
        rw [htail row hrow, h]
        simp
      simp [List.find?_cons, h, hfirst, hnone]

/-- What `getReservation` computes: the first reservation with the requested
id, joined with the first guest and room its references match. -/
theorem getReservation_eq (db : Db) (id : Int) :
    getReservation db id =
      match db.reservations.find? (fun r => r.id == id) with
      | none => .error 404 "Reservation not found"
      | some r => .json 200 (firstJoined db r) := by
  unfold getReservation joinedReservations
  rw [find?_joined]
  cases db.reservations.find? (fun r => r.id == id) <;> rfl

/-! ## Lemmas on `UPDATE` and `DELETE` -/

theorem filter_id_eq_nil (rs : List Reservation) (id : Int)
    (h : ∀ x ∈ rs, x.id ≠ id) : rs.filter (fun r => r.id == id) = [] := by
  rw [List.filter_eq_nil_iff]
  intro x hx
  simpa using h x hx

theorem filter_id_length_pos (rs : List Reservation) (id : Int) (x : Reservation)
    (hx : x ∈ rs) (hid : x.id = id) :
    ((rs.filter (fun r => r.id == id)).length == 0) = false := by
  have hmem : x ∈ rs.filter (fun r => r.id == id) := by
    rw [List.mem_filter]
    exact ⟨hx, by simp [hid]⟩
  cases hf : rs.filter (fun r => r.id == id) with
  | nil => rw [hf] at hmem; cases hmem
  | cons y ys => rfl

theorem find?_id_eq_none (rs : List Reservation) (id : Int)
    (h : ∀ x ∈ rs, x.id ≠ id) : rs.find? (fun r => r.id == id) = none := by
  rw [List.find?_eq_none]
  intro x hx
  simpa using h x hx

/-- After the `UPDATE`, the first row with the requested id carries the new
column values. -/
theorem find?_updated (rs : List Reservation) (id : Int) (new : Reservation)
    (hnew : new.id = id) (x : Reservation) (hx : x ∈ rs) (hid : x.id = id) :
    (rs.map fun r => if r.id == id then new else r).find? (fun r => r.id == id) =
      some new := by
  induction rs with
  | nil => cases hx
  | cons y ys ih =>
    by_cases hy : y.id = id
    · have hb : ((if y.id == id then new else y).id == id) = true := by simp [hy, hnew]
      rw [List.map_cons, List.find?_cons, hb]
      simp [hy]
    · have hx' : x ∈ ys := by
        rcases List.mem_cons.mp hx with rfl | hmem
        · exact absurd hid hy
        · exact hmem
      have hb : ((if y.id == id then new else y).id == id) = false := by simp [hy]
      rw [List.map_cons, List.find?_cons, hb]
      exact ih hx'

/-- A reservation request whose identifier names no stored row is answered
404 by the joined read. -/
theorem getReservation_of_absent (db : Db) (id : Int)
    (h : ∀ x ∈ db.reservations, x.id ≠ id) :
    getReservation db id = .error 404 "Reservation not found" := by
  rw [getReservation_eq, find?_id_eq_none db.reservations id h]

theorem deleteReservation_of_absent (db : Db) (id : Int)
    (h : ∀ x ∈ db.reservations, x.id ≠ id) :
    (deleteReservation db id).1 = .error 404 "Reservation not found" := by
  simp [deleteReservation, deleteReservationRow, filter_id_eq_nil db.reservations id h]

theorem updateReservation_of_present (db : Db) (id : Int) (body : ReservationBody)
    (hbody : missingRequired body = false) (x : Reservation)
    (hx : x ∈ db.reservations) (hid : x.id = id) :
    updateReservation db id body =
      (.json 200
        { id := id, guest_id := body.guest_id, room_id := body.room_id,
          check_in := body.check_in, check_out := body.check_out,
          status := body.status },
        { db with
          reservations := db.reservations.map fun r =>
            if r.id == id then
              { id := id, guest_id := body.guest_id, room_id := body.room_id,
                check_in := body.check_in, check_out := body.check_out,
                status := body.status }
            else r }) := by
  have hmap : (db.reservations.map fun r =>
      if r.id == id then
        ({ id := r.id, guest_id := body.guest_id, room_id := body.room_id,
           check_in := body.check_in, check_out := body.check_out,
           status := body.status } : Reservation)
      else r) =
      db.reservations.map fun r =>
        if r.id == id then
          { id := id, guest_id := body.guest_id, room_id := body.room_id,
            check_in := body.check_in, check_out := body.check_out,
            status := body.status }
        else r := by
    apply List.map_congr_left
    intro r _
    by_cases hr : r.id = id
    · simp [hr]
    · simp [hr]
  simp only [updateReservation, hbody, updateReservationRow,
    filter_id_length_pos db.reservations id x hx hid, hmap]
  rfl

/-- What the joined read shows after a successful update: the new column
values, joined against the unchanged guests and rooms. -/
theorem get_after_update (db : Db) (id : Int) (body : ReservationBody)
    (hbody : missingRequired body = false) (x : Reservation)
    (hx : x ∈ db.reservations) (hid : x.id = id) :
    getReservation (updateReservation db id body).2 id =
      .json 200 (firstJoined db
        { id := id, guest_id := body.guest_id, room_id := body.room_id,
          check_in := body.check_in, check_out := body.check_out,
          status := body.status }) := by
  rw [updateReservation_of_present db id body hbody x hx hid, getReservation_eq]
  simp only
  rw [find?_updated db.reservations id _ rfl x hx hid]
  rfl

/-! ## Lemmas on the order of `check_in` -/

theorem sqlTextLe_total (a b : Option String) : sqlTextLe a b ∨ sqlTextLe b a := by
  cases a with
  | none => exact Or.inl trivial
  | some x =>
    cases b with
    | none => exact Or.inr trivial
    | some y => exact le_total x.data y.data

theorem sqlTextLe_trans (a b c : Option String) (hab : sqlTextLe a b)
    (hbc : sqlTextLe b c) : sqlTextLe a c := by
  cases a with
  | none => trivial
  | some x =>
    cases b with
    | none => exact absurd hab (fun h => h)
    | some y =>
      cases c with
      | none => exact absurd hbc (fun h => h)
      | some z => exact le_trans (α := List Char) hab hbc

/-- The sort of `listReservations` yields a list in which every earlier row
has a `check_in` not smaller than every later row's. -/
theorem insertionSort_checkInDesc_sorted (l : List ReservationRow) :
    (l.insertionSort checkInDesc).Sorted checkInDesc :=
  @List.sorted_insertionSort ReservationRow checkInDesc _
    ⟨fun a b => sqlTextLe_total b.check_in a.check_in⟩
    ⟨fun a b c hab hbc => sqlTextLe_trans c.check_in b.check_in a.check_in hbc hab⟩ l

/-! ## Validation on create (C1, C2, C5) -/

/-- C1 (as stated, refuted): a request that supplies all four required fields,
the check-out as the empty string, is answered 400 and nothing is stored. -/
theorem createReservation_rejects_supplied_empty_check_out :
    (emptyCheckOutBody.guest_id ≠ none ∧ emptyCheckOutBody.room_id ≠ none ∧
      emptyCheckOutBody.check_in ≠ none ∧ emptyCheckOutBody.check_out ≠ none) ∧
    createReservation Db.empty emptyCheckOutBody = (.error 400 requiredMessage, Db.empty) := by
  decide

/-- C1 (amended): `createReservation` answers 400 exactly when one of guest
reference, room reference, check-in, check-out is missing, null, zero or the
empty string; and it answers 201 with the new record, appending that record
to the table, exactly when all four are supplied, non-zero and non-empty. -/
theorem createReservation_validation (db : Db) (body : ReservationBody) :
    ((createReservation db body).1 = .error 400 requiredMessage ↔
      ((body.guest_id = none ∨ body.guest_id = some 0) ∨
        (body.room_id = none ∨ body.room_id = some 0) ∨
        (body.check_in = none ∨ body.check_in = some "") ∨
        (body.check_out = none ∨ body.check_out = some ""))) ∧
    ((∃ record : Reservation,
        (createReservation db body).1 = .json 201 record ∧
        record.guest_id = body.guest_id ∧ record.room_id = body.room_id ∧
        record.check_in = body.check_in ∧ record.check_out = body.check_out ∧
        (createReservation db body).2.reservations = db.reservations ++ [record]) ↔
      ((∃ g, body.guest_id = some g ∧ g ≠ 0) ∧ (∃ r, body.room_id = some r ∧ r ≠ 0) ∧
        (∃ ci, body.check_in = some ci ∧ ci ≠ "") ∧
        (∃ co, body.check_out = some co ∧ co ≠ ""))) := by
  have hsome : ((∃ g, body.guest_id = some g ∧ g ≠ 0) ∧ (∃ r, body.room_id = some r ∧ r ≠ 0) ∧
        (∃ ci, body.check_in = some ci ∧ ci ≠ "") ∧
        (∃ co, body.check_out = some co ∧ co ≠ "")) ↔ missingRequired body = false := by
    obtain ⟨g, r, ci, co, st⟩ := body
    cases g <;> cases r <;> cases ci <;> cases co <;>
      simp [missingRequired, truthyInt, truthyText, and_assoc]
  rw [hsome, ← missingRequired_eq_true]
  cases h : missingRequired body with
  | true =>
    rw [createReservation_of_missing db body h]
    simp
  | false =>
    rw [createReservation_of_complete db body h]
    simp

/-- C2 (as stated, refuted): with all required fields supplied and `status`
supplied as the empty string, the returned record has status `active`, which
is not the supplied status. -/
theorem createReservation_empty_status_not_echoed :
    emptyStatusBody.status = some "" ∧
    (createReservation Db.empty emptyStatusBody).1 =
      .json 201 ⟨1, some 1, some 1, some "2024-03-01", some "2024-03-05", some "active"⟩ ∧
    (some "active" : Option String) ≠ emptyStatusBody.status := by
  decide

/-- C2 (amended): for every store and every request whose identifiers are
non-zero and whose dates are non-empty, `createReservation` answers 201 with a
record whose status is the supplied status when that is a non-empty string,
and `active` when status is omitted, null or the empty string. -/
theorem createReservation_status (db : Db) (g r : Int) (ci co : String)
    (status : Option String) (hg : g ≠ 0) (hr : r ≠ 0) (hci : ci ≠ "") (hco : co ≠ "") :
    ∃ record : Reservation,
      (createReservation db ⟨some g, some r, some ci, some co, status⟩).1 =
        .json 201 record ∧
      (∀ s, status = some s → s ≠ "" → record.status = some s) ∧
      (status = none ∨ status = some "" → record.status = some "active") := by
  rw [createReservation_of_complete db _ (missingRequired_of_supplied g r ci co status hg hr hci hco)]
  refine ⟨_, rfl, ?_, ?_⟩
  · intro s hs hne
    simp [orElse, truthyText, hs, hne]
  · rintro (hs | hs) <;> simp [orElse, truthyText, hs]

/-- Witness of `createReservation_status`: the scenario reservation with
status `cancelled` supplied. -/
theorem createReservation_status_witness :
    ((1 : Int) ≠ 0 ∧ ("2024-03-01" : String) ≠ "" ∧ ("2024-03-05" : String) ≠ "") ∧
    ∃ record : Reservation,
      (createReservation Db.empty
        ⟨some 1, some 1, some "2024-03-01", some "2024-03-05", some "cancelled"⟩).1 =
        .json 201 record ∧
      (∀ s, some "cancelled" = some s → s ≠ "" → record.status = some s) ∧
      (some "cancelled" = none ∨ some "cancelled" = some "" →
        record.status = some "active") :=
  ⟨by decide,
    createReservation_status Db.empty 1 1 "2024-03-01" "2024-03-05" (some "cancelled")
      (by decide) (by decide) (by decide) (by decide)⟩

/-- C5: when `createReservation` answers 400 the database, the
`sqlite_sequence` entry included, is exactly what it was, so every later
request is answered as if the failed one had never been sent. -/
theorem createReservation_invalid_leaves_store (db : Db) (body : ReservationBody)
    (h : (createReservation db body).1 = .error 400 requiredMessage) :
    (createReservation db body).2 = db ∧
    (createReservation db body).2.reservationSeq = db.reservationSeq ∧
    ∀ next : ReservationBody,
      createReservation (createReservation db body).2 next = createReservation db next := by
  have hmiss : missingRequired body = true := by
    cases hm : missingRequired body with
    | true => rfl
    | false =>
      rw [createReservation_of_complete db body hm] at h
      cases h
  rw [createReservation_of_missing db body hmiss]
  exact ⟨rfl, rfl, fun _ => rfl⟩

/-- Witness of `createReservation_invalid_leaves_store`: an empty check-out
sent to the fresh database. -/
theorem createReservation_invalid_leaves_store_witness :
    (createReservation Db.empty emptyCheckOutBody).1 = .error 400 requiredMessage ∧
    (createReservation Db.empty emptyCheckOutBody).2 = Db.empty ∧
    (createReservation Db.empty emptyCheckOutBody).2.reservationSeq = Db.empty.reservationSeq ∧
    ∀ next : ReservationBody,
      createReservation (createReservation Db.empty emptyCheckOutBody).2 next =
        createReservation Db.empty next :=
  ⟨by decide, createReservation_invalid_leaves_store Db.empty emptyCheckOutBody (by decide)⟩

/-! ## Reads after writes (C3, C4) -/

/-- C3: for every store and every request with non-zero identifiers, non-empty
dates and no status, `createReservation` answers 201 with a new identifier,
and `getReservation` on that identifier answers 200 with the same guest and
room references, the same dates, and status `active`. -/
theorem create_then_get (db : Db) (g r : Int) (ci co : String)
    (hg : g ≠ 0) (hr : r ≠ 0) (hci : ci ≠ "") (hco : co ≠ "") :
    ∃ (id : Int) (row : ReservationRow),
      (createReservation db ⟨some g, some r, some ci, some co, none⟩).1 =
        .json 201 ⟨id, some g, some r, some ci, some co, some "active"⟩ ∧
      getReservation (createReservation db ⟨some g, some r, some ci, some co, none⟩).2 id =
        .json 200 row ∧
      row.id = id ∧ row.guest_id = some g ∧ row.room_id = some r ∧
      row.check_in = some ci ∧ row.check_out = some co ∧ row.status = some "active" := by
  rw [createReservation_of_complete db _ (missingRequired_of_supplied g r ci co none hg hr hci hco)]
  rw [show orElse none "active" = some "active" from rfl]
  refine ⟨newRowid (db.reservations.map fun x : Reservation => x.id) db.reservationSeq,
    firstJoined db
      ⟨newRowid (db.reservations.map fun x : Reservation => x.id) db.reservationSeq,
        some g, some r, some ci, some co, some "active"⟩, rfl, ?_,
    rfl, rfl, rfl, rfl, rfl, rfl⟩
  rw [getReservation_eq]
  simp only
  rw [find?_append_new db.reservations db.reservationSeq _ rfl]
  rfl

/-- Witness of `create_then_get`: the round trip of the specification on the
fresh database. -/
theorem create_then_get_witness :
    ((1 : Int) ≠ 0 ∧ ("2024-01-10" : String) ≠ "" ∧ ("2024-01-12" : String) ≠ "") ∧
    ∃ (id : Int) (row : ReservationRow),
      (createReservation Db.empty
        ⟨some 1, some 1, some "2024-01-10", some "2024-01-12", none⟩).1 =
        .json 201 ⟨id, some 1, some 1, some "2024-01-10", some "2024-01-12", some "active"⟩ ∧
      getReservation (createReservation Db.empty
        ⟨some 1, some 1, some "2024-01-10", some "2024-01-12", none⟩).2 id = .json 200 row ∧
      row.id = id ∧ row.guest_id = some 1 ∧ row.room_id = some 1 ∧
      row.check_in = some "2024-01-10" ∧ row.check_out = some "2024-01-12" ∧
      row.status = some "active" :=
  ⟨by decide,
    create_then_get Db.empty 1 1 "2024-01-10" "2024-01-12"
      (by decide) (by decide) (by decide) (by decide)⟩

/-- C4: for every identifier that no stored reservation carries,
`getReservation`, `updateReservation` (with a request that passes the guard)
and `deleteReservation` each answer 404. -/
theorem absent_id_not_found (db : Db) (id : Int) (g r : Int) (ci co : String)
    (status : Option String) (habsent : ∀ x ∈ db.reservations, x.id ≠ id)
    (hg : g ≠ 0) (hr : r ≠ 0) (hci : ci ≠ "") (hco : co ≠ "") :
    getReservation db id = .error 404 "Reservation not found" ∧
    (updateReservation db id ⟨some g, some r, some ci, some co, status⟩).1 =
      .error 404 "Reservation not found" ∧
    (deleteReservation db id).1 = .error 404 "Reservation not found" := by
  refine ⟨getReservation_of_absent db id habsent, ?_, deleteReservation_of_absent db id habsent⟩
  simp [updateReservation, missingRequired_of_supplied g r ci co status hg hr hci hco,
    updateReservationRow, filter_id_eq_nil db.reservations id habsent]

/-- Witness of `absent_id_not_found`: identifier 2 in the scenario store,
which holds reservation 1 only. -/
theorem absent_id_not_found_witness :
    ((∀ x ∈ bookedDb.reservations, x.id ≠ 2) ∧ (1 : Int) ≠ 0 ∧
      ("2024-03-01" : String) ≠ "" ∧ ("2024-03-05" : String) ≠ "") ∧
    getReservation bookedDb 2 = .error 404 "Reservation not found" ∧
    (updateReservation bookedDb 2
      ⟨some 1, some 1, some "2024-03-01", some "2024-03-05", some "cancelled"⟩).1 =
      .error 404 "Reservation not found" ∧
    (deleteReservation bookedDb 2).1 = .error 404 "Reservation not found" :=
  ⟨by decide,
    absent_id_not_found bookedDb 2 1 1 "2024-03-01" "2024-03-05" (some "cancelled")
      (by decide) (by decide) (by decide) (by decide) (by decide)⟩

/-- C7: for every store and every request that passes the guard,
`createReservation` answers 201 and `getReservation` on the new identifier
answers 200; when the room reference names no stored room the joined
`room_number` and `room_type` are null, and when the guest reference names no
stored guest the joined `guest_name` and `guest_email` are null. -/
theorem dangling_reference_tolerated (db : Db) (g r : Int) (ci co : String)
    (status : Option String) (hg : g ≠ 0) (hr : r ≠ 0) (hci : ci ≠ "") (hco : co ≠ "") :
    ∃ (id : Int) (record : Reservation) (row : ReservationRow),
      (createReservation db ⟨some g, some r, some ci, some co, status⟩).1 =
        .json 201 record ∧
      record.id = id ∧ record.guest_id = some g ∧ record.room_id = some r ∧
      getReservation (createReservation db ⟨some g, some r, some ci, some co, status⟩).2 id =
        .json 200 row ∧
      row.id = id ∧ row.guest_id = some g ∧ row.room_id = some r ∧
      ((∀ rm ∈ db.rooms, rm.id ≠ r) → row.room_number = none ∧ row.room_type = none) ∧
      ((∀ gu ∈ db.guests, gu.id ≠ g) → row.guest_name = none ∧ row.guest_email = none) := by
  rw [createReservation_of_complete db _ (missingRequired_of_supplied g r ci co status hg hr hci hco)]
  refine ⟨newRowid (db.reservations.map fun x : Reservation => x.id) db.reservationSeq,
    _, firstJoined db
      ⟨newRowid (db.reservations.map fun x : Reservation => x.id) db.reservationSeq,
        some g, some r, some ci, some co, orElse status "active"⟩,
    rfl, rfl, rfl, rfl, ?_, rfl, rfl, rfl, ?_, ?_⟩
  · rw [getReservation_eq]
    simp only
    rw [find?_append_new db.reservations db.reservationSeq _ rfl]
    rfl
  · intro hroom
    have hnone : db.rooms.find? (fun rm => refEq (some r) rm.id) = none := by
      rw [List.find?_eq_none]
      intro rm hrm
      simpa [refEq] using fun h => hroom rm hrm h.symm
    simp [firstJoined, selectColumns, hnone]
  · intro hguest
    have hnone : db.guests.find? (fun gu => refEq (some g) gu.id) = none := by
      rw [List.find?_eq_none]
      intro gu hgu
      simpa [refEq] using fun h => hguest gu hgu h.symm
    simp [firstJoined, selectColumns, hnone]

/-- Witness of `dangling_reference_tolerated`: in the scenario store a
reservation for guest 1 (Alice) and the unknown room 9 is created and read
back with `room_number` and `room_type` null. -/
theorem dangling_reference_tolerated_witness :
    ((1 : Int) ≠ 0 ∧ (9 : Int) ≠ 0 ∧ ("2024-03-01" : String) ≠ "" ∧
      ("2024-03-05" : String) ≠ "" ∧ ∀ rm ∈ scenarioDb.rooms, rm.id ≠ 9) ∧
    ∃ (id : Int) (row : ReservationRow),
      getReservation (createReservation scenarioDb
        ⟨some 1, some 9, some "2024-03-01", some "2024-03-05", none⟩).2 id = .json 200 row ∧
      row.room_id = some 9 ∧ row.room_number = none ∧ row.room_type = none := by
  refine ⟨by decide, ?_⟩
  obtain ⟨id, _, row, _, _, _, _, hget, _, _, hroom, hnull, _⟩ :=
    dangling_reference_tolerated scenarioDb 1 9 "2024-03-01" "2024-03-05" none
      (by decide) (by decide) (by decide) (by decide)
  exact ⟨id, row, hget, hroom, (hnull (by decide)).1, (hnull (by decide)).2⟩

/-! ## Update and delete (C8, C9, C10) -/

/-- C8: for every stored reservation, whatever its current status, and every
target status among `active`, `completed`, `cancelled`, `updateReservation`
with a request that passes the guard answers 200, and `getReservation` on the
same identifier then shows the target status and the supplied guest
reference, room reference and dates. -/
theorem update_then_get (db : Db) (id : Int) (x : Reservation) (g r : Int)
    (ci co target : String) (hx : x ∈ db.reservations) (hid : x.id = id)
    (hg : g ≠ 0) (hr : r ≠ 0) (hci : ci ≠ "") (hco : co ≠ "")
    (htarget : target = "active" ∨ target = "completed" ∨ target = "cancelled") :
    (updateReservation db id ⟨some g, some r, some ci, some co, some target⟩).1 =
      .json 200 ⟨id, some g, some r, some ci, some co, some target⟩ ∧
    ∃ row : ReservationRow,
      getReservation
        (updateReservation db id ⟨some g, some r, some ci, some co, some target⟩).2 id =
        .json 200 row ∧
      row.id = id ∧ row.status = some target ∧ row.guest_id = some g ∧
      row.room_id = some r ∧ row.check_in = some ci ∧ row.check_out = some co ∧
      row.status ∈ [some "active", some "completed", some "cancelled"] := by
  have hbody := missingRequired_of_supplied g r ci co (some target) hg hr hci hco
  refine ⟨?_, _, get_after_update db id _ hbody x hx hid, rfl, rfl, rfl, rfl, rfl, rfl, ?_⟩
  · rw [updateReservation_of_present db id _ hbody x hx hid]
  · show some target ∈ [some "active", some "completed", some "cancelled"]
    rcases htarget with h | h | h <;> simp [h]

/-- Witness of `update_then_get`: the scenario reservation, stored as
`active`, is put to `cancelled`. -/
theorem update_then_get_witness :
    (marchReservation ∈ bookedDb.reservations ∧ marchReservation.id = 1 ∧
      (1 : Int) ≠ 0 ∧ ("2024-03-01" : String) ≠ "" ∧ ("2024-03-05" : String) ≠ "") ∧
    (updateReservation bookedDb 1
      ⟨some 1, some 1, some "2024-03-01", some "2024-03-05", some "cancelled"⟩).1 =
      .json 200 ⟨1, some 1, some 1, some "2024-03-01", some "2024-03-05", some "cancelled"⟩ ∧
    ∃ row : ReservationRow,
      getReservation
        (updateReservation bookedDb 1
          ⟨some 1, some 1, some "2024-03-01", some "2024-03-05", some "cancelled"⟩).2 1 =
        .json 200 row ∧
      row.id = 1 ∧ row.status = some "cancelled" ∧ row.guest_id = some 1 ∧
      row.room_id = some 1 ∧ row.check_in = some "2024-03-01" ∧
      row.check_out = some "2024-03-05" ∧
      row.status ∈ [some "active", some "completed", some "cancelled"] :=
  ⟨by decide,
    update_then_get bookedDb 1 marchReservation 1 1 "2024-03-01" "2024-03-05" "cancelled"
      (by decide) (by decide) (by decide) (by decide) (by decide) (by decide)
      (Or.inr (Or.inr rfl))⟩

theorem deleteReservation_snd (db : Db) (id : Int) :
    (deleteReservation db id).2 =
      { db with reservations := db.reservations.filter (fun r => !(r.id == id)) } := by
  unfold deleteReservation
  simp only [deleteReservationRow]
  split <;> rfl

/-- C9: for every store and every stored reservation identifier,
`deleteReservation` answers 200; on the resulting store a second
`deleteReservation` and `getReservation` on that identifier answer 404. -/
theorem delete_is_terminal (db : Db) (id : Int) (x : Reservation)
    (hx : x ∈ db.reservations) (hid : x.id = id) :
    (deleteReservation db id).1 = .json 200 "Reservation deleted successfully" ∧
    (deleteReservation (deleteReservation db id).2 id).1 =
      .error 404 "Reservation not found" ∧
    getReservation (deleteReservation db id).2 id = .error 404 "Reservation not found" := by
  have hgone : ∀ y ∈ (deleteReservation db id).2.reservations, y.id ≠ id := by
    rw [deleteReservation_snd]
    intro y hy
    simpa using (List.mem_filter.mp hy).2
  refine ⟨?_, deleteReservation_of_absent _ id hgone, getReservation_of_absent _ id hgone⟩
  simp [deleteReservation, deleteReservationRow,
    filter_id_length_pos db.reservations id x hx hid]

/-- Witness of `delete_is_terminal`: the scenario reservation is deleted. -/
theorem delete_is_terminal_witness :
    (marchReservation ∈ bookedDb.reservations ∧ marchReservation.id = 1) ∧
    (deleteReservation bookedDb 1).1 = .json 200 "Reservation deleted successfully" ∧
    (deleteReservation (deleteReservation bookedDb 1).2 1).1 =
      .error 404 "Reservation not found" ∧
    getReservation (deleteReservation bookedDb 1).2 1 = .error 404 "Reservation not found" :=
  ⟨by decide, delete_is_terminal bookedDb 1 marchReservation (by decide) (by decide)⟩

/-- C10 (as stated, refuted): the scenario reservation, stored with status
`active`, is updated with all four required fields and no status; the reply
is 200 with no status, and the row is stored and read back with a null
status, not with `active`. -/
theorem updateReservation_absent_status_not_defaulted :
    marchBody.status = none ∧
    getReservation bookedDb 1 =
      .json 200 ⟨1, some 1, some 1, some "2024-03-01", some "2024-03-05", some "active",
        some "Alice", some "alice@example.com", some "101", some "double"⟩ ∧
    (updateReservation bookedDb 1 marchBody).1 =
      .json 200 ⟨1, some 1, some 1, some "2024-03-01", some "2024-03-05", none⟩ ∧
    (updateReservation bookedDb 1 marchBody).2.reservations =
      [⟨1, some 1, some 1, some "2024-03-01", some "2024-03-05", none⟩] ∧
    getReservation (updateReservation bookedDb 1 marchBody).2 1 =
      .json 200 ⟨1, some 1, some 1, some "2024-03-01", some "2024-03-05", none,
        some "Alice", some "alice@example.com", some "101", some "double"⟩ := by
  decide

/-- C10 (amended): `updateReservation` rejects exactly the requests that
`createReservation` rejects, but it does not default the status: for every
stored reservation and every request that passes the guard and carries no
status, the update answers 200 with a record without status, every stored row
with that identifier then holds the supplied references and dates and a null
status, and the joined read shows a null status. -/
theorem updateReservation_absent_status (db : Db) (id : Int) (x : Reservation)
    (g r : Int) (ci co : String) (hx : x ∈ db.reservations) (hid : x.id = id)
    (hg : g ≠ 0) (hr : r ≠ 0) (hci : ci ≠ "") (hco : co ≠ "") :
    (∀ body : ReservationBody,
      (updateReservation db id body).1 = .error 400 requiredMessage ↔
        (createReservation db body).1 = .error 400 requiredMessage) ∧
    (updateReservation db id ⟨some g, some r, some ci, some co, none⟩).1 =
      .json 200 ⟨id, some g, some r, some ci, some co, none⟩ ∧
    (∀ y ∈ (updateReservation db id ⟨some g, some r, some ci, some co, none⟩).2.reservations,
      y.id = id → y = ⟨id, some g, some r, some ci, some co, none⟩) ∧
    ∃ row : ReservationRow,
      getReservation (updateReservation db id ⟨some g, some r, some ci, some co, none⟩).2 id =
        .json 200 row ∧
      row.id = id ∧ row.status = none := by
  have hbody := missingRequired_of_supplied g r ci co none hg hr hci hco
  refine ⟨?_, ?_, ?_, _, get_after_update db id _ hbody x hx hid, rfl, rfl⟩
  · intro body
    cases hm : missingRequired body with
    | true =>
      rw [createReservation_of_missing db body hm]
      simp [updateReservation, hm]
    | false =>
      rw [createReservation_of_complete db body hm,
        updateReservation_of_present db id body hm x hx hid]
      simp
  · rw [updateReservation_of_present db id _ hbody x hx hid]
  · rw [updateReservation_of_present db id _ hbody x hx hid]
    intro y hy hyid
    simp only [List.mem_map] at hy
    obtain ⟨z, _, hz⟩ := hy
    by_cases hzid : z.id = id
    · rw [← hz]
      simp [hzid]
    · have hyz : y = z := by
        rw [← hz]
        simp [hzid]
      exact absurd (hyz ▸ hyid) hzid

/-- Witness of `updateReservation_absent_status`: the scenario reservation is
updated without a status. -/
theorem updateReservation_absent_status_witness :
    (marchReservation ∈ bookedDb.reservations ∧ marchReservation.id = 1 ∧
      (1 : Int) ≠ 0 ∧ ("2024-03-01" : String) ≠ "" ∧ ("2024-03-05" : String) ≠ "") ∧
    (∀ body : ReservationBody,
      (updateReservation bookedDb 1 body).1 = .error 400 requiredMessage ↔
        (createReservation bookedDb body).1 = .error 400 requiredMessage) ∧
    (updateReservation bookedDb 1
      ⟨some 1, some 1, some "2024-03-01", some "2024-03-05", none⟩).1 =
      .json 200 ⟨1, some 1, some 1, some "2024-03-01", some "2024-03-05", none⟩ ∧
    (∀ y ∈ (updateReservation bookedDb 1
        ⟨some 1, some 1, some "2024-03-01", some "2024-03-05", none⟩).2.reservations,
      y.id = 1 → y = ⟨1, some 1, some 1, some "2024-03-01", some "2024-03-05", none⟩) ∧
    ∃ row : ReservationRow,
      getReservation (updateReservation bookedDb 1
        ⟨some 1, some 1, some "2024-03-01", some "2024-03-05", none⟩).2 1 = .json 200 row ∧
      row.id = 1 ∧ row.status = none :=
  ⟨by decide,
    updateReservation_absent_status bookedDb 1 marchReservation 1 1 "2024-03-01" "2024-03-05"
      (by decide) (by decide) (by decide) (by decide) (by decide) (by decide)⟩

/-! ## Listing (C6) -/

/-- C6: for every store, `listReservations` answers 200 with the joined rows
(a rearrangement of them) ordered by check-in descending: of two adjacent
rows the earlier one's `check_in` is greater than or equal to the later
one's, texts being compared character by character. -/
theorem listReservations_sorted (db : Db) :
    ∃ rows : List ReservationRow,
      listReservations db = .json 200 rows ∧
      rows.Perm (joinedReservations db) ∧
      (∀ (i : Nat) (earlier later : ReservationRow),
        rows[i]? = some earlier → rows[i + 1]? = some later →
        sqlTextLe later.check_in earlier.check_in) ∧
      (∀ (i : Nat) (earlier later : ReservationRow) (a b : String),
        rows[i]? = some earlier → rows[i + 1]? = some later →
        earlier.check_in = some a → later.check_in = some b → b.data ≤ a.data) := by
  have hadj : ∀ (i : Nat) (earlier later : ReservationRow),
      ((joinedReservations db).insertionSort checkInDesc)[i]? = some earlier →
      ((joinedReservations db).insertionSort checkInDesc)[i + 1]? = some later →
      sqlTextLe later.check_in earlier.check_in := by
    intro i earlier later h₁ h₂
    obtain ⟨hi, he⟩ := List.getElem?_eq_some.mp h₁
    obtain ⟨hj, hl⟩ := List.getElem?_eq_some.mp h₂
    have hs := List.pairwise_iff_getElem.mp
      (insertionSort_checkInDesc_sorted (joinedReservations db)) i (i + 1) hi hj
      (Nat.lt_succ_self i)
    rw [he, hl] at hs
    exact hs
  refine ⟨_, rfl, List.perm_insertionSort checkInDesc (joinedReservations db), hadj, ?_⟩
  intro i earlier later a b h₁ h₂ ha hb
  have h := hadj i earlier later h₁ h₂
  rw [ha, hb] at h
  exact h

/-- The listing example of the specification: reservations with check-in
dates `2024-01-05`, `2024-02-01`, `2024-01-20` are listed in the order
`2024-02-01`, `2024-01-20`, `2024-01-05`. -/
theorem listReservations_example :
    ∃ rows : List ReservationRow,
      listReservations listingDb = .json 200 rows ∧
      rows.map (fun row => row.check_in) =
        [some "2024-02-01", some "2024-01-20", some "2024-01-05"] :=
  ⟨_, rfl, by decide⟩

/-! ## Lemmas on sequences of requests -/

theorem createReservation_snd (db : Db) (body : ReservationBody) :
    (createReservation db body).2 =
      if missingRequired body then db
      else (insertReservation db body.guest_id body.room_id body.check_in
        body.check_out (orElse body.status "active")).2 := by
  unfold createReservation
  split <;> rfl

theorem updateReservation_snd (db : Db) (id : Int) (body : ReservationBody) :
    (updateReservation db id body).2 =
      if missingRequired body then db
      else (updateReservationRow db body.guest_id body.room_id body.check_in
        body.check_out body.status id).2 := by
  unfold updateReservation
  split
  · rfl
  · simp only
    split <;> rfl

theorem orElse_mem_statusValues (status : Option String)
    (h : status = none ∨ status = some "" ∨ status ∈ statusValues) :
    orElse status "active" ∈ statusValues := by
  rcases h with h | h | h
  · rw [h]; decide
  · rw [h]; decide
  · simp only [statusValues, List.mem_cons, List.mem_singleton, List.not_mem_nil,
      or_false] at h
    rcases h with h | h | h <;> rw [h] <;> decide

/-- One request whose status is within the data model keeps every stored
status within the data model. -/
theorem step_status (db : Db) (req : Request) (hreq : req.statusWithinModel)
    (hdb : ∀ r ∈ db.reservations, r.status ∈ statusValues) :
    ∀ r ∈ (step db req).reservations, r.status ∈ statusValues := by
  cases req with
  | create body =>
    intro r hr
    simp only [step, createReservation_snd] at hr
    split at hr
    · exact hdb r hr
    · simp only [insertReservation, List.mem_append, List.mem_singleton] at hr
      rcases hr with hr | hr
      · exact hdb r hr
      · rw [hr]
        exact orElse_mem_statusValues body.status hreq
  | update id body =>
    intro r hr
    simp only [step, updateReservation_snd] at hr
    split at hr
    · exact hdb r hr
    · simp only [updateReservationRow, List.mem_map] at hr
      obtain ⟨old, hold, hr⟩ := hr
      split at hr
      · rw [← hr]
        exact hreq
      · rw [← hr]
        exact hdb old hold
  | delete id =>
    intro r hr
    simp only [step, deleteReservation_snd, List.mem_filter] at hr
    exact hdb r hr.1

theorem run_status (reqs : List Request) (db : Db)
    (hreqs : ∀ req ∈ reqs, req.statusWithinModel)
    (hdb : ∀ r ∈ db.reservations, r.status ∈ statusValues) :
    ∀ r ∈ (run db reqs).reservations, r.status ∈ statusValues := by
  induction reqs generalizing db with
  | nil => exact hdb
  | cons req rest ih =>
    exact ih (step db req) (fun q hq => hreqs q (List.mem_cons_of_mem _ hq))
      (step_status db req (hreqs req (List.mem_cons_self _ _)) hdb)

/-! ## Status invariant (C11) -/

/-- C11 (as stated, refuted): one create request with status `pending`, sent
to the empty store, is answered 201 and leaves a stored reservation whose
status is none of `active`, `completed`, `cancelled`. -/
theorem status_outside_model_is_stored :
    (createReservation Db.empty pendingBody).1 =
      .json 201 ⟨1, some 1, some 1, some "2024-03-01", some "2024-03-05", some "pending"⟩ ∧
    (run Db.empty [.create pendingBody]).reservations =
      [⟨1, some 1, some 1, some "2024-03-01", some "2024-03-05", some "pending"⟩] ∧
    ¬ ∀ r ∈ (run Db.empty [.create pendingBody]).reservations,
      r.status = some "active" ∨ r.status = some "completed" ∨
        r.status = some "cancelled" := by
  decide

/-- C11 (amended): in every store reached from the empty store by a sequence
of create, update and delete requests in which every create carries a status
among `active`, `completed`, `cancelled` or none, and every update carries a
status among the three, every stored reservation's status is one of the
three. -/
theorem status_invariant (reqs : List Request)
    (hreqs : ∀ req ∈ reqs, req.statusWithinModel) :
    ∀ r ∈ (run Db.empty reqs).reservations,
      r.status = some "active" ∨ r.status = some "completed" ∨
        r.status = some "cancelled" := by
  intro r hr
  have h := run_status reqs Db.empty hreqs (fun x hx => by cases hx) r hr
  simpa [statusValues] using h

/-- Witness of `status_invariant`: a create without status, an update to
`cancelled`, a second create with `completed`, and a delete. -/
theorem status_invariant_witness :
    (∀ req ∈ [Request.create marchBody,
        Request.update 1 ⟨some 1, some 1, some "2024-03-01", some "2024-03-05",
          some "cancelled"⟩,
        Request.create ⟨some 2, some 1, some "2024-04-01", some "2024-04-02",
          some "completed"⟩,
        Request.delete 7], req.statusWithinModel) ∧
    ∀ r ∈ (run Db.empty [Request.create marchBody,
        Request.update 1 ⟨some 1, some 1, some "2024-03-01", some "2024-03-05",
          some "cancelled"⟩,
        Request.create ⟨some 2, some 1, some "2024-04-01", some "2024-04-02",
          some "completed"⟩,
        Request.delete 7]).reservations,
      r.status = some "active" ∨ r.status = some "completed" ∨
        r.status = some "cancelled" := by
  have hreqs : ∀ req ∈ [Request.create marchBody,
      Request.update 1 ⟨some 1, some 1, some "2024-03-01", some "2024-03-05",
        some "cancelled"⟩,
      Request.create ⟨some 2, some 1, some "2024-04-01", some "2024-04-02",
        some "completed"⟩,
      Request.delete 7], req.statusWithinModel := by
    intro req hreq
    simp only [List.mem_cons, List.mem_singleton, List.not_mem_nil, or_false] at hreq
    rcases hreq with h | h | h | h <;> rw [h] <;>
      simp [Request.statusWithinModel, marchBody, statusValues]
  exact ⟨hreqs, status_invariant _ hreqs⟩

/-! ## Identifier assignment (C12) -/

theorem seq_lt_newRowid (rowids : List Int) (seq : Int) : seq < newRowid rowids seq := by
  unfold newRowid
  dsimp only
  split_ifs <;> omega

/-- Handling a request never lowers the `sqlite_sequence` entry. -/
theorem step_seq_le (db : Db) (req : Request) :
    db.reservationSeq ≤ (step db req).reservationSeq := by
  cases req with
  | create body =>
    simp only [step, createReservation_snd]
    split
    · exact le_refl _
    · exact le_of_lt (seq_lt_newRowid _ _)
  | update id body =>
    simp only [step, updateReservation_snd]
    split <;> exact le_refl _
  | delete id =>
    simp only [step, deleteReservation_snd]
    exact le_refl _

/-- The identifier a successful create is answered with exceeds the
`sqlite_sequence` entry and every stored identifier, and becomes the new
`sqlite_sequence` entry. -/
theorem assignedId_spec (db : Db) (req : Request) (id : Int)
    (h : assignedId db req = some id) :
    db.reservationSeq < id ∧ (∀ r ∈ db.reservations, r.id < id) ∧
    (step db req).reservationSeq = id ∧
    ∃ new : Reservation, new.id = id ∧
      (step db req).reservations = db.reservations ++ [new] := by
  cases req with
  | update i body => simp [assignedId] at h
  | delete i => simp [assignedId] at h
  | create body =>
    cases hm : missingRequired body with
    | true =>
      simp [assignedId, createReservation_of_missing db body hm] at h
    | false =>
      simp only [assignedId, createReservation_of_complete db body hm,
        Option.some.injEq] at h
      simp only [step, createReservation_of_complete db body hm]
      rw [← h]
      refine ⟨seq_lt_newRowid _ _, ?_, rfl, _, rfl, rfl⟩
      intro r hr
      exact lt_newRowid _ _ r.id (List.mem_map_of_mem (fun x : Reservation => x.id) hr)

/-- A request that is not answered with a new identifier stores no new
identifier. -/
theorem step_ids_of_not_assigned (db : Db) (req : Request)
    (h : assignedId db req = none) :
    ∀ r ∈ (step db req).reservations, ∃ old ∈ db.reservations, old.id = r.id := by
  intro r hr
  cases req with
  | create body =>
    cases hm : missingRequired body with
    | true =>
      simp only [step, createReservation_of_missing db body hm] at hr
      exact ⟨r, hr, rfl⟩
    | false =>
      simp [assignedId, createReservation_of_complete db body hm] at h
  | update id body =>
    simp only [step, updateReservation_snd] at hr
    split at hr
    · exact ⟨r, hr, rfl⟩
    · simp only [updateReservationRow, List.mem_map] at hr
      obtain ⟨old, hold, hr⟩ := hr
      refine ⟨old, hold, ?_⟩
      split at hr <;> rw [← hr]
  | delete id =>
    simp only [step, deleteReservation_snd, List.mem_filter] at hr
    exact ⟨r, hr.1, rfl⟩

theorem step_nodup (db : Db) (req : Request)
    (hdb : (db.reservations.map fun r => r.id).Nodup) :
    ((step db req).reservations.map fun r => r.id).Nodup := by
  cases hreq : assignedId db req with
  | some id =>
    obtain ⟨_, hlt, _, new, hnew, hstep⟩ := assignedId_spec db req id hreq
    rw [hstep, List.map_append, List.map_singleton, hnew]
    refine List.Nodup.append hdb (List.nodup_singleton id) ?_
    intro a ha hid
    rw [List.mem_singleton] at hid
    rw [List.mem_map] at ha
    obtain ⟨r, hr, hra⟩ := ha
    have := hlt r hr
    omega
  | none =>
    cases req with
    | create body =>
      cases hm : missingRequired body with
      | true => simpa only [step, createReservation_of_missing db body hm] using hdb
      | false => simp [assignedId, createReservation_of_complete db body hm] at hreq
    | update id body =>
      simp only [step, updateReservation_snd]
      split
      · exact hdb
      · have hmap : ((updateReservationRow db body.guest_id body.room_id body.check_in
            body.check_out body.status id).2.reservations.map fun r => r.id) =
            db.reservations.map fun r => r.id := by
          simp only [updateReservationRow, List.map_map]
          apply List.map_congr_left
          intro r _
          simp only [Function.comp]
          split <;> rfl
        rw [hmap]
        exact hdb
    | delete id =>
      simp only [step, deleteReservation_snd]
      exact (hdb.sublist ((List.filter_sublist _).map _))

theorem run_nodup (reqs : List Request) (db : Db)
    (hdb : (db.reservations.map fun r => r.id).Nodup) :
    ((run db reqs).reservations.map fun r => r.id).Nodup := by
  induction reqs generalizing db with
  | nil => exact hdb
  | cons req rest ih => exact ih (step db req) (step_nodup db req hdb)

/-- Every identifier assigned during a sequence of requests exceeds the
`sqlite_sequence` entry the sequence started from. -/
theorem seq_lt_assignedIds (reqs : List Request) (db : Db) :
    ∀ id ∈ assignedIds db reqs, db.reservationSeq < id := by
  induction reqs generalizing db with
  | nil => intro id hid; cases hid
  | cons req rest ih =>
    intro id hid
    have hle := step_seq_le db req
    cases hreq : assignedId db req with
    | some first =>
      simp only [assignedIds, hreq, List.mem_cons] at hid
      rcases hid with rfl | hid
      · exact (assignedId_spec db req id hreq).1
      · have := ih (step db req) id hid
        omega
    | none =>
      simp only [assignedIds, hreq] at hid
      have := ih (step db req) id hid
      omega

theorem assignedIds_increasing (reqs : List Request) (db : Db) :
    (assignedIds db reqs).Pairwise (fun earlier later => earlier < later) := by
  induction reqs generalizing db with
  | nil => exact List.Pairwise.nil
  | cons req rest ih =>
    cases hreq : assignedId db req with
    | some first =>
      simp only [assignedIds, hreq]
      refine List.Pairwise.cons ?_ (ih (step db req))
      intro later hlater
      have h := seq_lt_assignedIds rest (step db req) later hlater
      rw [(assignedId_spec db req first hreq).2.2.1] at h
      exact h
    | none =>
      simp only [assignedIds, hreq]
      exact ih (step db req)

/-- Every identifier stored after a sequence of requests was stored before it
or was assigned by one of its creates. -/
theorem run_ids_assigned (reqs : List Request) (db : Db) :
    ∀ r ∈ (run db reqs).reservations,
      (∃ old ∈ db.reservations, old.id = r.id) ∨ r.id ∈ assignedIds db reqs := by
  induction reqs generalizing db with
  | nil => intro r hr; exact Or.inl ⟨r, hr, rfl⟩
  | cons req rest ih =>
    intro r hr
    cases hreq : assignedId db req with
    | some first =>
      simp only [assignedIds, hreq, List.mem_cons]
      rcases ih (step db req) r hr with ⟨old, hold, hid⟩ | hin
      · obtain ⟨_, _, _, new, hnew, hstep⟩ := assignedId_spec db req first hreq
        rw [hstep, List.mem_append, List.mem_singleton] at hold
        rcases hold with hold | hold
        · exact Or.inl ⟨old, hold, hid⟩
        · right; left
          rw [← hid, hold, hnew]
      · exact Or.inr (Or.inr hin)
    | none =>
      simp only [assignedIds, hreq]
      rcases ih (step db req) r hr with ⟨old, hold, hid⟩ | hin
      · obtain ⟨older, holder, hid'⟩ := step_ids_of_not_assigned db req hreq old hold
        exact Or.inl ⟨older, holder, hid'.trans hid⟩
      · exact Or.inr hin

/-- C12: after every sequence of create, update and delete requests sent to
the empty store, no two stored reservations share an identifier, every stored
identifier was assigned by a create of the sequence, and the identifiers the
successful creates were answered with are positive and strictly increasing in
the order of the creates, whether or not their reservations were deleted in
between. -/
theorem identifiers_unique_and_increasing (reqs : List Request) :
    ((run Db.empty reqs).reservations.map fun r => r.id).Nodup ∧
    (∀ r ∈ (run Db.empty reqs).reservations, r.id ∈ assignedIds Db.empty reqs) ∧
    (∀ id ∈ assignedIds Db.empty reqs, 0 < id) ∧
    (assignedIds Db.empty reqs).Pairwise (fun earlier later => earlier < later) := by
  refine ⟨run_nodup reqs Db.empty List.nodup_nil, ?_, ?_, assignedIds_increasing reqs Db.empty⟩
  · intro r hr
    rcases run_ids_assigned reqs Db.empty r hr with ⟨old, hold, _⟩ | h
    · cases hold
    · exact h
  · intro id hid
    exact seq_lt_assignedIds reqs Db.empty id hid

/-- An instance of `identifiers_unique_and_increasing`: create, delete the
created reservation, create again; the second create is answered with
identifier 2, not with the freed identifier 1. -/
theorem identifiers_after_delete_example :
    assignedIds Db.empty [.create marchBody, .delete 1, .create marchBody] = [1, 2] ∧
    (run Db.empty [.create marchBody, .delete 1, .create marchBody]).reservations.map
      (fun r => r.id) = [2] := by
  decide

/-! ## Lemmas on primary keys -/

/-- In a table without duplicate keys, the lookup by a row's key yields that
row. -/
theorem find?_of_nodup_ids {α : Type} (key : α → Int) (l : List α) (a : α)
    (hnodup : (l.map key).Nodup) (ha : a ∈ l) :
    l.find? (fun b => key b == key a) = some a := by
  induction l with
  | nil => cases ha
  | cons b bs ih =>
    rw [List.map_cons, List.nodup_cons] at hnodup
    rcases List.mem_cons.mp ha with rfl | hmem
    · simp [List.find?_cons]
    · have hne : key b ≠ key a := by
        intro h
        exact hnodup.1 (h ▸ List.mem_map_of_mem key hmem)
      have hb : (key b == key a) = false := by simp [hne]
      rw [List.find?_cons, hb]
      exact ih hnodup.2 hmem

theorem find?_refEq_of_nodup {α : Type} (key : α → Int) (l : List α) (a : α)
    (hnodup : (l.map key).Nodup) (ha : a ∈ l) :
    l.find? (fun b => refEq (some (key a)) (key b)) = some a := by
  have hfun : (fun b => refEq (some (key a)) (key b)) = fun b => key b == key a := by
    funext b
    by_cases h : key b = key a
    · simp [refEq, h]
    · have h' : ¬ key a = key b := fun e => h e.symm
      simp [refEq, h, h']
  rw [hfun]
  exact find?_of_nodup_ids key l a hnodup ha

theorem find?_refEq_none {α : Type} (key : α → Int) (l : List α) (id : Int)
    (h : ∀ b ∈ l, key b ≠ id) :
    l.find? (fun b => refEq (some id) (key b)) = none := by
  rw [List.find?_eq_none]
  intro b hb
  have hne : ¬ id = key b := fun e => h b hb e.symm
  simp [refEq, hne]

theorem getReservation_of_mem (db : Db) (x : Reservation)
    (hids : (db.reservations.map fun r => r.id).Nodup) (hx : x ∈ db.reservations) :
    getReservation db x.id = .json 200 (firstJoined db x) := by
  rw [getReservation_eq,
    find?_of_nodup_ids (fun r : Reservation => r.id) db.reservations x hids hx]

theorem deleteGuest_snd (db : Db) (id : Int) :
    (deleteGuest db id).2 =
      { db with guests := db.guests.filter (fun g => !(g.id == id)) } := by
  unfold deleteGuest
  simp only [deleteGuestRow]
  split <;> rfl

theorem deleteRoom_snd (db : Db) (id : Int) :
    (deleteRoom db id).2 =
      { db with rooms := db.rooms.filter (fun rm => !(rm.id == id)) } := by
  unfold deleteRoom
  simp only [deleteRoomRow]
  split <;> rfl

/-! ## Joined reads and referenced guests and rooms (C13, C14) -/

/-- C13: in every store with unique reservation identifiers, for every stored
reservation: deleting the guest it references (when that guest exists) is
answered 200, leaves the reservations, the rooms and both sequences as they
were, and the joined read of the reservation then answers 200 with all stored
columns unchanged, `guest_id` included, the room columns as before, and
`guest_name`, `guest_email` null; likewise for deleting the room it
references. -/
theorem delete_does_not_cascade (db : Db) (x : Reservation)
    (hids : (db.reservations.map fun r => r.id).Nodup) (hx : x ∈ db.reservations) :
    (∀ gu ∈ db.guests, x.guest_id = some gu.id →
      (deleteGuest db gu.id).1 = .json 200 "Guest deleted successfully" ∧
      (deleteGuest db gu.id).2.reservations = db.reservations ∧
      (deleteGuest db gu.id).2.rooms = db.rooms ∧
      (deleteGuest db gu.id).2.reservationSeq = db.reservationSeq ∧
      getReservation (deleteGuest db gu.id).2 x.id =
        .json 200
          { id := x.id, guest_id := some gu.id, room_id := x.room_id,
            check_in := x.check_in, check_out := x.check_out, status := x.status,
            guest_name := none, guest_email := none,
            room_number := (firstJoined db x).room_number,
            room_type := (firstJoined db x).room_type }) ∧
    (∀ rm ∈ db.rooms, x.room_id = some rm.id →
      (deleteRoom db rm.id).1 = .json 200 "Room deleted successfully" ∧
      (deleteRoom db rm.id).2.reservations = db.reservations ∧
      (deleteRoom db rm.id).2.guests = db.guests ∧
      (deleteRoom db rm.id).2.reservationSeq = db.reservationSeq ∧
      getReservation (deleteRoom db rm.id).2 x.id =
        .json 200
          { id := x.id, guest_id := x.guest_id, room_id := some rm.id,
            check_in := x.check_in, check_out := x.check_out, status := x.status,
            guest_name := (firstJoined db x).guest_name,
            guest_email := (firstJoined db x).guest_email,
            room_number := none, room_type := none }) := by
  constructor
  · intro gu hgu hg
    have hlen : ((db.guests.filter (fun g => g.id == gu.id)).length == 0) = false := by
      have hmem : gu ∈ db.guests.filter (fun g => g.id == gu.id) := by
        rw [List.mem_filter]
        exact ⟨hgu, by simp⟩
      cases hf : db.guests.filter (fun g => g.id == gu.id) with
      | nil => rw [hf] at hmem; cases hmem
      | cons y ys => rfl
    refine ⟨by simp [deleteGuest, deleteGuestRow, hlen], ?_, ?_, ?_, ?_⟩
    · rw [deleteGuest_snd]
    · rw [deleteGuest_snd]
    · rw [deleteGuest_snd]
    · rw [deleteGuest_snd, getReservation_of_mem
        { db with guests := db.guests.filter (fun g => !(g.id == gu.id)) } x hids hx]
      have hnone : (db.guests.filter (fun g => !(g.id == gu.id))).find?
          (fun g => refEq (some gu.id) g.id) = none := by
        apply find?_refEq_none (fun g : Guest => g.id)
        intro b hb
        simpa using (List.mem_filter.mp hb).2
      simp only [firstJoined, selectColumns, hg, hnone]
      rfl
  · intro rm hrm hr
    have hlen : ((db.rooms.filter (fun r => r.id == rm.id)).length == 0) = false := by
      have hmem : rm ∈ db.rooms.filter (fun r => r.id == rm.id) := by
        rw [List.mem_filter]
        exact ⟨hrm, by simp⟩
      cases hf : db.rooms.filter (fun r => r.id == rm.id) with
      | nil => rw [hf] at hmem; cases hmem
      | cons y ys => rfl
    refine ⟨by simp [deleteRoom, deleteRoomRow, hlen], ?_, ?_, ?_, ?_⟩
    · rw [deleteRoom_snd]
    · rw [deleteRoom_snd]
    · rw [deleteRoom_snd]
    · rw [deleteRoom_snd, getReservation_of_mem
        { db with rooms := db.rooms.filter (fun r => !(r.id == rm.id)) } x hids hx]
      have hnone : (db.rooms.filter (fun r => !(r.id == rm.id))).find?
          (fun r => refEq (some rm.id) r.id) = none := by
        apply find?_refEq_none (fun r : Room => r.id)
        intro b hb
        simpa using (List.mem_filter.mp hb).2
      simp only [firstJoined, selectColumns, hr, hnone]
      rfl

/-- Witness of `delete_does_not_cascade`: in the scenario store, deleting
Alice and deleting room 101 each leave reservation 1 readable with the
reference kept and the joined columns null. -/
theorem delete_does_not_cascade_witness :
    ((bookedDb.reservations.map fun r => r.id).Nodup ∧
      marchReservation ∈ bookedDb.reservations ∧ alice ∈ bookedDb.guests ∧
      marchReservation.guest_id = some alice.id ∧ room101 ∈ bookedDb.rooms ∧
      marchReservation.room_id = some room101.id) ∧
    ((deleteGuest bookedDb 1).1 = .json 200 "Guest deleted successfully" ∧
      (deleteGuest bookedDb 1).2.reservations = bookedDb.reservations ∧
      getReservation (deleteGuest bookedDb 1).2 1 =
        .json 200 ⟨1, some 1, some 1, some "2024-03-01", some "2024-03-05", some "active",
          none, none, some "101", some "double"⟩) ∧
    ((deleteRoom bookedDb 1).1 = .json 200 "Room deleted successfully" ∧
      (deleteRoom bookedDb 1).2.reservations = bookedDb.reservations ∧
      getReservation (deleteRoom bookedDb 1).2 1 =
        .json 200 ⟨1, some 1, some 1, some "2024-03-01", some "2024-03-05", some "active",
          some "Alice", some "alice@example.com", none, none⟩) := by
  have h := delete_does_not_cascade bookedDb marchReservation (by decide) (by decide)
  obtain ⟨hg₁, hg₂, _, _, hg₃⟩ := h.1 alice (by decide) (by decide)
  obtain ⟨hr₁, hr₂, _, _, hr₃⟩ := h.2 room101 (by decide) (by decide)
  exact ⟨by decide, ⟨hg₁, hg₂, hg₃⟩, ⟨hr₁, hr₂, hr₃⟩⟩

/-- C14: in every store with unique reservation, guest and room identifiers,
for every stored reservation whose `guest_id` is the id of a stored guest and
whose `room_id` is the id of a stored room, `getReservation` answers 200 with
the reservation's own columns unchanged, `guest_name` and `guest_email` that
guest's name and email, and `room_number` and `room_type` that room's number
and type. -/
theorem joined_view_correct (db : Db) (x : Reservation) (gu : Guest) (rm : Room)
    (hids : (db.reservations.map fun r => r.id).Nodup)
    (hguests : (db.guests.map fun g => g.id).Nodup)
    (hrooms : (db.rooms.map fun r => r.id).Nodup)
    (hx : x ∈ db.reservations) (hgu : gu ∈ db.guests) (hg : x.guest_id = some gu.id)
    (hrm : rm ∈ db.rooms) (hr : x.room_id = some rm.id) :
    getReservation db x.id =
      .json 200
        { id := x.id, guest_id := x.guest_id, room_id := x.room_id,
          check_in := x.check_in, check_out := x.check_out, status := x.status,
          guest_name := some gu.name, guest_email := gu.email,
          room_number := some rm.number, room_type := rm.type } := by
  rw [getReservation_of_mem db x hids hx]
  have h₁ := find?_refEq_of_nodup (fun g : Guest => g.id) db.guests gu hguests hgu
  have h₂ := find?_refEq_of_nodup (fun r : Room => r.id) db.rooms rm hrooms hrm
  simp only at h₁ h₂
  simp only [firstJoined, selectColumns, hg, hr, h₁, h₂]
  rfl

/-- Witness of `joined_view_correct`: the scenario reservation is read with
Alice's name and email and room 101's number and type. -/
theorem joined_view_correct_witness :
    ((bookedDb.reservations.map fun r => r.id).Nodup ∧
      (bookedDb.guests.map fun g => g.id).Nodup ∧
      (bookedDb.rooms.map fun r => r.id).Nodup ∧
      marchReservation ∈ bookedDb.reservations ∧ alice ∈ bookedDb.guests ∧
      marchReservation.guest_id = some alice.id ∧ room101 ∈ bookedDb.rooms ∧
      marchReservation.room_id = some room101.id) ∧
    getReservation bookedDb marchReservation.id =
      .json 200
        { id := marchReservation.id, guest_id := marchReservation.guest_id,
          room_id := marchReservation.room_id, check_in := marchReservation.check_in,
          check_out := marchReservation.check_out, status := marchReservation.status,
          guest_name := some alice.name, guest_email := alice.email,
          room_number := some room101.number, room_type := room101.type } :=
  ⟨by decide,
    joined_view_correct bookedDb marchReservation alice room101 (by decide) (by decide)
      (by decide) (by decide) (by decide) (by decide) (by decide) (by decide)⟩

/-! ## Failed and successful writes (C15, C16, C20) -/

theorem no_match_of_changes_zero (rs : List Reservation) (id : Int)
    (h : ((rs.filter (fun r => r.id == id)).length == 0) = true) :
    ∀ y ∈ rs, y.id ≠ id := by
  intro y hy hid
  have hmem : y ∈ rs.filter (fun r => r.id == id) := by
    rw [List.mem_filter]
    exact ⟨hy, by simp [hid]⟩
  cases hf : rs.filter (fun r => r.id == id) with
  | nil => rw [hf] at hmem; cases hmem
  | cons z zs => rw [hf] at h; cases h

theorem exists_match_of_changes (rs : List Reservation) (id : Int)
    (h : ((rs.filter (fun r => r.id == id)).length == 0) = false) :
    ∃ x ∈ rs, x.id = id := by
  cases hf : rs.filter (fun r => r.id == id) with
  | nil => rw [hf] at h; cases h
  | cons z zs =>
    have hz : z ∈ rs.filter (fun r => r.id == id) := by rw [hf]; exact List.mem_cons_self _ _
    rw [List.mem_filter] at hz
    exact ⟨z, hz.1, by simpa using hz.2⟩

theorem map_update_of_ne (l : List Reservation) (id : Int) (new : Reservation → Reservation)
    (h : ∀ y ∈ l, y.id ≠ id) :
    (l.map fun r => if r.id == id then new r else r) = l := by
  induction l with
  | nil => rfl
  | cons y ys ih =>
    have hy : (y.id == id) = false := by simpa using h y (List.mem_cons_self _ _)
    rw [List.map_cons, ih (fun z hz => h z (List.mem_cons_of_mem _ hz))]
    simp [hy]

theorem filter_ne_of_ne (l : List Reservation) (id : Int) (h : ∀ y ∈ l, y.id ≠ id) :
    l.filter (fun r => !(r.id == id)) = l := by
  rw [List.filter_eq_self]
  intro y hy
  simpa using h y hy

/-- A table with unique identifiers splits around the one row that carries a
given identifier. -/
theorem split_at_id (rs : List Reservation) (id : Int)
    (hids : (rs.map fun r => r.id).Nodup) (x : Reservation) (hx : x ∈ rs)
    (hid : x.id = id) :
    ∃ pre post, rs = pre ++ x :: post ∧ (∀ y ∈ pre, y.id ≠ id) ∧
      (∀ y ∈ post, y.id ≠ id) := by
  obtain ⟨pre, post, hsplit⟩ := List.append_of_mem hx
  subst hsplit
  rw [List.map_append, List.map_cons, List.nodup_append, List.nodup_cons] at hids
  obtain ⟨_, ⟨hpost, _⟩, hdisj⟩ := hids
  refine ⟨pre, post, rfl, ?_, ?_⟩
  · intro y hy hyid
    have hmem : y.id ∈ x.id :: post.map (fun r => r.id) := by
      rw [hyid, ← hid]
      exact List.mem_cons_self _ _
    exact hdisj (List.mem_map_of_mem (fun r : Reservation => r.id) hy) hmem
  · intro y hy hyid
    have hmem : y.id ∈ post.map (fun r => r.id) :=
      List.mem_map_of_mem (fun r : Reservation => r.id) hy
    rw [hyid, ← hid] at hmem
    exact hpost hmem

/-- C15: whenever `updateReservation` or `deleteReservation` answers with an
error (400 or 404, the only errors they send), the database they leave, all
three tables and the three sequences, equals the database they were given. -/
theorem failed_write_leaves_store (db : Db) (id : Int) (body : ReservationBody) :
    (∀ code message, (updateReservation db id body).1 = .error code message →
      (code = 400 ∨ code = 404) ∧ (updateReservation db id body).2 = db) ∧
    (∀ code message, (deleteReservation db id).1 = .error code message →
      code = 404 ∧ (deleteReservation db id).2 = db) := by
  constructor
  · intro code message h
    cases hm : missingRequired body with
    | true =>
      have hfst : (updateReservation db id body).1 = .error 400 requiredMessage := by
        simp [updateReservation, hm]
      rw [hfst, Reply.error.injEq] at h
      refine ⟨Or.inl h.1.symm, ?_⟩
      simp [updateReservation_snd, hm]
    | false =>
      cases hc : (db.reservations.filter (fun r => r.id == id)).length == 0 with
      | true =>
        have hne := no_match_of_changes_zero db.reservations id hc
        have hfst : (updateReservation db id body).1 =
            .error 404 "Reservation not found" := by
          simp [updateReservation, hm, updateReservationRow, hc]
        rw [hfst, Reply.error.injEq] at h
        refine ⟨Or.inr h.1.symm, ?_⟩
        simp only [updateReservation_snd, hm, updateReservationRow]
        rw [map_update_of_ne db.reservations id _ hne]
        rfl
      | false =>
        simp [updateReservation, hm, updateReservationRow, hc] at h
  · intro code message h
    cases hc : (db.reservations.filter (fun r => r.id == id)).length == 0 with
    | true =>
      have hne := no_match_of_changes_zero db.reservations id hc
      have hfst : (deleteReservation db id).1 = .error 404 "Reservation not found" := by
        simp [deleteReservation, deleteReservationRow, hc]
      rw [hfst, Reply.error.injEq] at h
      refine ⟨h.1.symm, ?_⟩
      rw [deleteReservation_snd, filter_ne_of_ne db.reservations id hne]
    | false =>
      simp [deleteReservation, deleteReservationRow, hc] at h

/-- Witness of `failed_write_leaves_store`: in the scenario store an update
with an empty check-out (400), an update of the unknown reservation 2 (404)
and a delete of reservation 2 (404) each leave the store as it was. -/
theorem failed_write_leaves_store_witness :
    ((updateReservation bookedDb 1 emptyCheckOutBody).1 = .error 400 requiredMessage ∧
      (updateReservation bookedDb 1 emptyCheckOutBody).2 = bookedDb) ∧
    ((updateReservation bookedDb 2 marchBody).1 = .error 404 "Reservation not found" ∧
      (updateReservation bookedDb 2 marchBody).2 = bookedDb) ∧
    ((deleteReservation bookedDb 2).1 = .error 404 "Reservation not found" ∧
      (deleteReservation bookedDb 2).2 = bookedDb) :=
  ⟨⟨by decide,
      ((failed_write_leaves_store bookedDb 1 emptyCheckOutBody).1 400 requiredMessage
        (by decide)).2⟩,
    ⟨by decide,
      ((failed_write_leaves_store bookedDb 2 marchBody).1 404 "Reservation not found"
        (by decide)).2⟩,
    ⟨by decide,
      ((failed_write_leaves_store bookedDb 2 marchBody).2 404 "Reservation not found"
        (by decide)).2⟩⟩

/-- C16: in every store with unique reservation identifiers, a successful
`updateReservation` replaces the one row with the requested identifier and
leaves every other row, the order and the list of stored identifiers, all
guests, all rooms and the sequences as they were; a successful
`deleteReservation` removes that one row and nothing else; a successful
`createReservation` appends the returned record and changes no stored row,
guest or room. -/
theorem exactly_one_record_affected (db : Db) (id : Int) (body : ReservationBody)
    (hids : (db.reservations.map fun r => r.id).Nodup) :
    (∀ record, (updateReservation db id body).1 = .json 200 record →
      ∃ pre old post, db.reservations = pre ++ old :: post ∧ old.id = id ∧
        (updateReservation db id body).2 =
          { db with reservations := pre ++ record :: post } ∧
        record.id = id ∧
        ((updateReservation db id body).2.reservations.map fun r => r.id) =
          db.reservations.map fun r => r.id) ∧
    (∀ message, (deleteReservation db id).1 = .json 200 message →
      ∃ pre old post, db.reservations = pre ++ old :: post ∧ old.id = id ∧
        (deleteReservation db id).2 = { db with reservations := pre ++ post }) ∧
    (∀ record, (createReservation db body).1 = .json 201 record →
      (createReservation db body).2 =
        { db with reservations := db.reservations ++ [record],
                  reservationSeq := record.id } ∧
      ∀ old ∈ db.reservations, old.id ≠ record.id) := by
  refine ⟨?_, ?_, ?_⟩
  · intro record h
    cases hm : missingRequired body with
    | true => simp [updateReservation, hm] at h
    | false =>
      cases hc : (db.reservations.filter (fun r => r.id == id)).length == 0 with
      | true => simp [updateReservation, hm, updateReservationRow, hc] at h
      | false =>
        obtain ⟨x, hx, hid⟩ := exists_match_of_changes db.reservations id hc
        obtain ⟨pre, post, hsplit, hpre, hpost⟩ := split_at_id db.reservations id hids x hx hid
        rw [updateReservation_of_present db id body hm x hx hid] at h ⊢
        simp only [Reply.json.injEq, true_and] at h
        subst h
        refine ⟨pre, x, post, hsplit, hid, ?_, rfl, ?_⟩
        · simp only
          rw [hsplit, List.map_append, List.map_cons, map_update_of_ne pre id _ hpre,
            map_update_of_ne post id _ hpost]
          simp [hid]
        · simp only
          rw [hsplit, List.map_append, List.map_cons, map_update_of_ne pre id _ hpre,
            map_update_of_ne post id _ hpost]
          simp [hid]
  · intro message h
    cases hc : (db.reservations.filter (fun r => r.id == id)).length == 0 with
    | true => simp [deleteReservation, deleteReservationRow, hc] at h
    | false =>
      obtain ⟨x, hx, hid⟩ := exists_match_of_changes db.reservations id hc
      obtain ⟨pre, post, hsplit, hpre, hpost⟩ := split_at_id db.reservations id hids x hx hid
      refine ⟨pre, x, post, hsplit, hid, ?_⟩
      rw [deleteReservation_snd, hsplit, List.filter_append, List.filter_cons,
        filter_ne_of_ne pre id hpre, filter_ne_of_ne post id hpost]
      simp [hid]
  · intro record h
    cases hm : missingRequired body with
    | true => simp [createReservation_of_missing db body hm] at h
    | false =>
      rw [createReservation_of_complete db body hm] at h ⊢
      simp only [Reply.json.injEq, true_and] at h
      subst h
      refine ⟨rfl, ?_⟩
      intro old hold
      have := lt_newRowid (db.reservations.map fun r => r.id) db.reservationSeq old.id
        (List.mem_map_of_mem (fun r : Reservation => r.id) hold)
      simp only
      omega

/-- Witness of `exactly_one_record_affected`: in a store with the three
listing reservations, updating and deleting reservation 2 touch that row only,
and a create appends reservation 4. -/
theorem exactly_one_record_affected_witness :
    (listingDb.reservations.map fun r => r.id).Nodup ∧
    listingDb.reservations.map (fun r => r.id) = [1, 2, 3] ∧
    ((updateReservation listingDb 2 marchBody).2.reservations.map fun r => r.id) =
      [1, 2, 3] ∧
    (∀ r ∈ listingDb.reservations, r.id ≠ 2 →
      r ∈ (updateReservation listingDb 2 marchBody).2.reservations) ∧
    ((deleteReservation listingDb 2).2.reservations.map fun r => r.id) = [1, 3] ∧
    ((createReservation listingDb marchBody).2.reservations.map fun r => r.id) =
      [1, 2, 3, 4] := by
  have h := exactly_one_record_affected listingDb 2 marchBody (by decide)
  obtain ⟨_, _, _, _, _, _, _, hupd⟩ := h.1 _ (by decide :
    (updateReservation listingDb 2 marchBody).1 =
      .json 200 ⟨2, some 1, some 1, some "2024-03-01", some "2024-03-05", none⟩)
  exact ⟨by decide, by decide, by rw [hupd]; decide, by decide, by decide, by decide⟩

/-- C20: for every store and every identifier, whether or not it names a
stored reservation, an update request in which guest reference, room
reference, check-in or check-out is missing (or null, zero or empty) is
answered 400, not 404; the answer is the same for every store, and the store
is left as it was. -/
theorem validation_precedes_lookup (db : Db) (id : Int) (body : ReservationBody)
    (hmissing : (body.guest_id = none ∨ body.guest_id = some 0) ∨
      (body.room_id = none ∨ body.room_id = some 0) ∨
      (body.check_in = none ∨ body.check_in = some "") ∨
      (body.check_out = none ∨ body.check_out = some "")) :
    (updateReservation db id body).1 = .error 400 requiredMessage ∧
    (∀ message, (updateReservation db id body).1 ≠ .error 404 message) ∧
    (updateReservation db id body).2 = db ∧
    ∀ (other : Db) (otherId : Int),
      (updateReservation other otherId body).1 = (updateReservation db id body).1 := by
  have hm := (missingRequired_eq_true body).mpr hmissing
  have hall : ∀ (d : Db) (i : Int),
      updateReservation d i body = (.error 400 requiredMessage, d) := by
    intro d i
    simp [updateReservation, hm]
  rw [hall db id]
  refine ⟨rfl, ?_, rfl, ?_⟩
  · intro message h
    simp at h
  · intro other otherId
    rw [hall other otherId]

/-- Witness of `validation_precedes_lookup`: a body without check-out sent to
the stored reservation 1 and to the unknown reservation 2 of the scenario
store gets 400 both times. -/
theorem validation_precedes_lookup_witness :
    ((⟨some 1, some 1, some "2024-03-01", none, some "active"⟩ : ReservationBody).check_out
      = none) ∧
    (updateReservation bookedDb 1 ⟨some 1, some 1, some "2024-03-01", none, some "active"⟩).1
      = .error 400 requiredMessage ∧
    (updateReservation bookedDb 2 ⟨some 1, some 1, some "2024-03-01", none, some "active"⟩).1
      = .error 400 requiredMessage ∧
    (updateReservation bookedDb 2 ⟨some 1, some 1, some "2024-03-01", none, some "active"⟩).2
      = bookedDb :=
  ⟨rfl,
    (validation_precedes_lookup bookedDb 1
      ⟨some 1, some 1, some "2024-03-01", none, some "active"⟩
      (Or.inr (Or.inr (Or.inr (Or.inl rfl))))).1,
    (validation_precedes_lookup bookedDb 2
      ⟨some 1, some 1, some "2024-03-01", none, some "active"⟩
      (Or.inr (Or.inr (Or.inr (Or.inl rfl))))).1,
    (validation_precedes_lookup bookedDb 2
      ⟨some 1, some 1, some "2024-03-01", none, some "active"⟩
      (Or.inr (Or.inr (Or.inr (Or.inl rfl))))).2.2.1⟩

/-! ## Room validation (C17) -/

/-- C17 (as stated, refuted): room 1 of the scenario store, stored with status
`available`, is updated with its number and no status; the reply is 200
without status and the stored room has a null status, not `available`. -/
theorem updateRoom_absent_status_not_defaulted :
    room101Body.number = some "101" ∧ room101Body.status = none ∧
    scenarioDb.rooms = [⟨1, "101", some "double", some "available", none⟩] ∧
    (updateRoom scenarioDb 1 room101Body).1 =
      .json 200 ⟨1, some "101", some "double", none, none⟩ ∧
    (updateRoom scenarioDb 1 room101Body).2.rooms =
      [⟨1, "101", some "double", none, none⟩] := by
  decide

/-- C17 (amended): every room create and every room update is answered 400,
with the store left as it was, when the number is missing, null or empty; for
every room create with a non-empty number and no status the returned room and
the stored room have status `available`; for every update of a stored room
with a non-empty number and no status the reply is 200 without status and
every stored room with that identifier has a null status. -/
theorem room_validation (db : Db) (id : Int) (body : RoomBody) :
    ((body.number = none ∨ body.number = some "") →
      createRoom db body = (.error 400 "Room number is required", db) ∧
      updateRoom db id body = (.error 400 "Room number is required", db)) ∧
    (∀ number, body.number = some number → number ≠ "" → body.status = none →
      ∃ record : RoomRecord,
        (createRoom db body).1 = .json 201 record ∧
        record.number = some number ∧ record.status = some "available" ∧
        (createRoom db body).2.rooms = db.rooms ++
          [⟨record.id, number, body.type, some "available", body.price⟩]) ∧
    (∀ number, body.number = some number → number ≠ "" → body.status = none →
      (∃ rm ∈ db.rooms, rm.id = id) →
      (updateRoom db id body).1 = .json 200 ⟨id, some number, body.type, none, body.price⟩ ∧
      ∀ rm ∈ (updateRoom db id body).2.rooms, rm.id = id → rm.status = none) := by
  refine ⟨?_, ?_, ?_⟩
  · rintro (h | h) <;> simp [createRoom, updateRoom, h]
  · intro number hnum hne hstatus
    refine ⟨⟨newRowid (db.rooms.map fun rm => rm.id) db.roomSeq, some number, body.type,
      some "available", body.price⟩, ?_, rfl, rfl, ?_⟩
    · simp [createRoom, hnum, hne, hstatus, insertRoom, orElse, truthyText]
    · simp [createRoom, hnum, hne, hstatus, insertRoom, orElse, truthyText]
  · intro number hnum hne hstatus hex
    obtain ⟨x, hx, hid⟩ := hex
    have hlen : ((db.rooms.filter (fun rm => rm.id == id)).length == 0) = false := by
      have hmem : x ∈ db.rooms.filter (fun rm => rm.id == id) := by
        rw [List.mem_filter]
        exact ⟨hx, by simp [hid]⟩
      cases hf : db.rooms.filter (fun rm => rm.id == id) with
      | nil => rw [hf] at hmem; cases hmem
      | cons y ys => rfl
    have hupd : updateRoom db id body =
        (.json 200 ⟨id, some number, body.type, none, body.price⟩,
          (updateRoomRow db number body.type none body.price id).2) := by
      have hnum' : (number == "") = false := by simpa using hne
      have hlen' : ((updateRoomRow db number body.type none body.price id).1 == 0) =
          false := hlen
      simp only [updateRoom, hnum, hstatus, hnum', hlen']
      rfl
    rw [hupd]
    refine ⟨rfl, ?_⟩
    intro rm hrm hrmid
    simp only [updateRoomRow, List.mem_map] at hrm
    obtain ⟨old, _, hold⟩ := hrm
    by_cases ho : old.id = id
    · rw [← hold]
      simp [ho]
    · have hsame : rm = old := by
        rw [← hold]
        simp [ho]
      exact absurd (hsame ▸ hrmid) ho

/-- Witness of `room_validation`: in the scenario store a body with an empty
number is rejected, room `101` without status is created as `available`, and
the same body sent as an update of room 1 leaves it without status. -/
theorem room_validation_witness :
    createRoom scenarioDb ⟨some "", none, none, none⟩ =
      (.error 400 "Room number is required", scenarioDb) ∧
    (∃ record : RoomRecord,
      (createRoom scenarioDb room101Body).1 = .json 201 record ∧
      record.status = some "available") ∧
    (updateRoom scenarioDb 1 room101Body).1 =
      .json 200 ⟨1, some "101", some "double", none, none⟩ := by
  have h := room_validation scenarioDb 1 room101Body
  have h₀ := room_validation scenarioDb 1 ⟨some "", none, none, none⟩
  obtain ⟨record, hrec, _, hstatus, _⟩ := h.2.1 "101" rfl (by decide) rfl
  exact ⟨(h₀.1 (Or.inr rfl)).1, ⟨record, hrec, hstatus⟩,
    (h.2.2 "101" rfl (by decide) rfl ⟨room101, by decide, rfl⟩).1⟩

/-! ## The dashboard (C18) -/

/-- What the four cards show, for every fetched triple of lists: the lengths
of the three lists and the number of rooms whose status is `available`. -/
theorem statCards_fetchStats (guests : List Guest) (rooms : List Room)
    (reservations : List ReservationRow) :
    statCards (fetchStats guests rooms reservations) =
      [("👥 Total Guests", guests.length),
       ("🏠 Total Rooms", rooms.length),
       ("📅 Active Reservations", reservations.length),
       ("✅ Available Rooms",
         (rooms.filter (fun room => room.status == some "available")).length)] :=
  rfl

/-- C18 (the code at the failing input): with one fetched reservation, whose
status is `cancelled`, and one fetched room, which is available, the card
`Active Reservations` shows 1 although no fetched reservation is active; the
card `Available Rooms` shows 1, the number of available rooms. -/
theorem dashboard_active_reservations_counts_cancelled :
    ([cancelledRow].filter (fun row => row.status == some "active")).length = 0 ∧
    (statCards (fetchStats [alice] [room101] [cancelledRow])).lookup
      "📅 Active Reservations" = some 1 ∧
    ([room101].filter (fun room => room.status == some "available")).length = 1 ∧
    (statCards (fetchStats [alice] [room101] [cancelledRow])).lookup
      "✅ Available Rooms" = some 1 := by
  decide

/-! ## One joined row per reservation (C19) -/

/-- In a table with unique keys at most one row matches a reference. -/
theorem filter_refEq_of_nodup {β : Type} (key : β → Int) (r : List β)
    (ref : Option Int) (hnodup : (r.map key).Nodup) :
    r.filter (fun b => refEq ref (key b)) =
      (r.find? (fun b => refEq ref (key b))).toList := by
  induction r with
  | nil => rfl
  | cons b bs ih =>
    rw [List.map_cons, List.nodup_cons] at hnodup
    cases hb : refEq ref (key b) with
    | false =>
      rw [List.filter_cons, List.find?_cons]
      simp only [hb]
      exact ih hnodup.2
    | true =>
      have href : ref = some (key b) := by simpa [refEq] using hb
      have hnil : bs.filter (fun c => refEq ref (key c)) = [] := by
        rw [List.filter_eq_nil_iff]
        intro c hc hcond
        have hkey : key b = key c := by simpa [refEq, href] using hcond
        exact hnodup.1 (hkey ▸ List.mem_map_of_mem key hc)
      rw [List.filter_cons, List.find?_cons]
      simp only [hb, if_true, hnil]
      rfl

/-- When at most one right row matches every left row, the left join pairs
every left row with exactly one entry. -/
theorem leftJoin_eq_map {α β : Type} (cond : α → β → Bool) (l : List α) (r : List β)
    (h : ∀ a, r.filter (cond a) = (r.find? (cond a)).toList) :
    leftJoin cond l r = l.map fun a => (a, r.find? (cond a)) := by
  induction l with
  | nil => rfl
  | cons a l ih =>
    have hs : leftJoin cond [a] r = [(a, r.find? (cond a))] := by
      unfold leftJoin
      rw [List.flatMap_cons, List.flatMap_nil, List.append_nil, h a]
      cases r.find? (cond a) <;> rfl
    rw [leftJoin_cons, hs, ih]
    rfl

theorem joinedReservations_eq_map (db : Db)
    (hguests : (db.guests.map fun g => g.id).Nodup)
    (hrooms : (db.rooms.map fun r => r.id).Nodup) :
    joinedReservations db = db.reservations.map (firstJoined db) := by
  unfold joinedReservations
  rw [leftJoin_eq_map (fun (r : Reservation) (g : Guest) => refEq r.guest_id g.id)
      db.reservations db.guests
      (fun a => filter_refEq_of_nodup (fun g : Guest => g.id) db.guests a.guest_id hguests),
    leftJoin_eq_map
      (fun (x : Reservation × Option Guest) (rm : Room) => refEq x.1.room_id rm.id) _ db.rooms
      (fun a => filter_refEq_of_nodup (fun r : Room => r.id) db.rooms a.1.room_id hrooms)]
  simp only [List.map_map]
  rfl

/-- C19: in every store whose guest identifiers and room identifiers are
unique, `listReservations` answers 200 with as many rows as there are stored
reservations; the rows are, up to order, the stored reservations each joined
with the guest and room it references (nulls for a dangling reference), so
the identifiers in the result are, with multiplicity, the stored ones. -/
theorem listReservations_one_row_each (db : Db)
    (hguests : (db.guests.map fun g => g.id).Nodup)
    (hrooms : (db.rooms.map fun r => r.id).Nodup) :
    ∃ rows : List ReservationRow,
      listReservations db = .json 200 rows ∧
      rows.length = db.reservations.length ∧
      (rows.map fun row => row.id).Perm (db.reservations.map fun r => r.id) ∧
      rows.Perm (db.reservations.map (firstJoined db)) := by
  have hperm : ((joinedReservations db).insertionSort checkInDesc).Perm
      (db.reservations.map (firstJoined db)) := by
    rw [← joinedReservations_eq_map db hguests hrooms]
    exact List.perm_insertionSort checkInDesc (joinedReservations db)
  refine ⟨_, rfl, ?_, ?_, hperm⟩
  · rw [hperm.length_eq, List.length_map]
  · have h := hperm.map (fun row : ReservationRow => row.id)
    rw [List.map_map] at h
    exact h

/-- Witness of `listReservations_one_row_each`: the scenario store with a
second reservation that references the unknown room 9 lists two rows, with
identifiers 2 and 1. -/
theorem listReservations_one_row_each_witness :
    ((danglingDb.guests.map fun g => g.id).Nodup ∧
      (danglingDb.rooms.map fun r => r.id).Nodup ∧
      danglingDb.reservations.map (fun r => r.id) = [1, 2]) ∧
    ∃ rows : List ReservationRow,
      listReservations danglingDb = .json 200 rows ∧
      rows.length = danglingDb.reservations.length ∧
      (rows.map fun row => row.id).Perm (danglingDb.reservations.map fun r => r.id) ∧
      rows.Perm (danglingDb.reservations.map (firstJoined danglingDb)) :=
  ⟨by decide, listReservations_one_row_each danglingDb (by decide) (by decide)⟩

end HotelDB
